import Mathlib

/-!
Shallow embedding of the action-binding and input-state-synchronization core
of pimax-openxr (src/pimax-openxr/action.cpp), together with theorems checking
the natural-language specification against it.

Modelling conventions:
- `XrPath`, `XrActionSet`, `XrAction`, `XrInstance`, `XrSession` handles are `Nat`
  (0 is `XR_NULL_PATH` / `XR_NULL_HANDLE`).
- C float fields are modelled as rationals (`ℚ`); the code only copies and
  compares them, so exact-comparison semantics carry over.
- Per-hand arrays (`field[2]` indexed by `side`) are modelled as pairs with a
  `sideGet`/`sideSet` projection indexed by `Fin 2`.
- The hardware pointers wired into an `Action` by the binding resolver
  (`buttonMap`, `floatValue`, `vector2fValue` — pointers into the per-hand
  arrays of the cached `pvrInputState`) are modelled as optional selectors into
  the `PvrInputState` record, dereferenced through `readButton` / `readFloat` /
  `readVec2`.
- Hardware effects (the PVR haptic pulse, the PVR input poll and controller
  type detection) are modelled as explicit inputs/outputs of the functions that
  perform them.
-/

namespace pimax_openxr

/-- XrResult values used by the action subsystem. -/
inductive XrResult where
  | success
  | errorValidationFailure
  | errorHandleInvalid
  | errorPathInvalid
  | errorSizeInsufficient
  | errorActionsetsAlreadyAttached
  | errorActionsetNotAttached
  | errorActionTypeMismatch
  deriving DecidableEq, Repr

/-- XrActionType values. -/
inductive ActionType where
  | booleanInput
  | floatInput
  | vector2fInput
  | poseInput
  | vibrationOutput
  deriving DecidableEq, Repr

/-- Selector for the per-hand button-bitmask arrays of the PVR input state that
`Action::buttonMap` may point into. -/
inductive ButtonField where
  | handButtons
  | handTouches
  deriving DecidableEq, Repr

/-- Selector for the per-hand float arrays of the PVR input state that
`Action::floatValue` may point into. -/
inductive FloatField where
  | trigger
  | grip
  | gripForce
  | touchPadForce
  | fingerIndex
  | fingerMiddle
  | fingerRing
  | fingerPinky
  deriving DecidableEq, Repr

/-- Selector for the per-hand 2-axis arrays of the PVR input state that
`Action::vector2fValue` may point into. -/
inductive Vec2Field where
  | joyStick
  | touchPad
  deriving DecidableEq, Repr

/-- The per-hand aim-pose offset. The vive/knuckles poses are built from
trigonometric constants irrelevant to the claims, so the three possible values
are kept symbolic. -/
inductive AimPose where
  | identity
  | vive
  | knuckles
  deriving DecidableEq, Repr

/-- Projection of a per-hand pair at a side index (C `field[side]`). -/
def sideGet {α : Type} (p : α × α) (side : Fin 2) : α :=
  if side = 0 then p.1 else p.2

/-- Update of a per-hand pair at a side index (C `field[side] = v`). -/
def sideSet {α : Type} (p : α × α) (side : Fin 2) (v : α) : α × α :=
  if side = 0 then (v, p.2) else (p.1, v)

/-- Conversion of a non-negative `getActionSide` result to a side index. -/
def sideIndex (side : Int) : Fin 2 :=
  if side = 1 then 1 else 0

/-- The `pvrInputState` record latched by `xrSyncActions` (per-hand raw
signals plus a timestamp). -/
structure PvrInputState where
  timeInSeconds : ℚ
  handButtons : Nat × Nat
  handTouches : Nat × Nat
  trigger : ℚ × ℚ
  grip : ℚ × ℚ
  gripForce : ℚ × ℚ
  joyStick : (ℚ × ℚ) × (ℚ × ℚ)
  touchPad : (ℚ × ℚ) × (ℚ × ℚ)
  touchPadForce : ℚ × ℚ
  fingerIndex : ℚ × ℚ
  fingerMiddle : ℚ × ℚ
  fingerRing : ℚ × ℚ
  fingerPinky : ℚ × ℚ
  deriving DecidableEq, Repr

/-- Dereference of `Action::buttonMap` at a side. -/
def readButton (st : PvrInputState) (f : ButtonField) (side : Fin 2) : Nat :=
  match f with
  | .handButtons => sideGet st.handButtons side
  | .handTouches => sideGet st.handTouches side

/-- Dereference of `Action::floatValue` at a side. -/
def readFloat (st : PvrInputState) (f : FloatField) (side : Fin 2) : ℚ :=
  match f with
  | .trigger => sideGet st.trigger side
  | .grip => sideGet st.grip side
  | .gripForce => sideGet st.gripForce side
  | .touchPadForce => sideGet st.touchPadForce side
  | .fingerIndex => sideGet st.fingerIndex side
  | .fingerMiddle => sideGet st.fingerMiddle side
  | .fingerRing => sideGet st.fingerRing side
  | .fingerPinky => sideGet st.fingerPinky side

/-- Dereference of `Action::vector2fValue` at a side. -/
def readVec2 (st : PvrInputState) (f : Vec2Field) (side : Fin 2) : ℚ × ℚ :=
  match f with
  | .joyStick => sideGet st.joyStick side
  | .touchPad => sideGet st.touchPad side

/-- The internal `Action` struct. Modelled from the spec: the struct itself is
declared in a header outside src/ — per the spec (§3, Action), it carries the
declared type, the owning set handle, the resolver-wired bound path and
hardware-field references (mutually exclusive button/float/2-axis), and the
last-observed value and last-change timestamp per relevant type (defaulting to
zero/false on creation). -/
structure Action where
  type : ActionType
  actionSet : Nat
  path : String := ""
  buttonMap : Option ButtonField := none
  buttonType : Nat := 0
  floatValue : Option FloatField := none
  vector2fValue : Option Vec2Field := none
  vector2fIndex : Int := -1
  lastBoolValue : Bool := false
  lastBoolValueChangedTime : Int := 0
  lastFloatValue : ℚ := 0
  lastFloatValueChangedTime : Int := 0
  lastVector2fValue : ℚ × ℚ := (0, 0)
  lastVector2fValueChangedTime : Int := 0
  deriving DecidableEq, Repr

/-- The `OpenXrRuntime` member state used by the action subsystem.
`actions` doubles as the `m_actions` handle set (membership = `isSome`) and the
handle-to-object dereference; `actionSets`, `activeActionSets` and
`frameLatchedActionSets` are the `std::set` members as lists (membership is the
only operation besides `size()`, tested as `≠ []`). -/
structure RuntimeState where
  instanceCreated : Bool
  sessionCreated : Bool
  strings : List (Nat × String)
  stringIndex : Nat
  actionSets : List Nat
  actions : Nat → Option Action
  activeActionSets : List Nat
  frameLatchedActionSets : List Nat
  suggestedBindings : String → Option (List (Nat × Nat))
  isControllerActive : Bool × Bool
  cachedControllerType : String × String
  localizedControllerType : String × String
  currentInteractionProfile : Nat × Nat
  controllerAimPose : AimPose × AimPose
  cachedInputState : PvrInputState
  currentInteractionProfileDirty : Bool

/-- Insertion into a `std::set`-as-list: no-op if present, else append. -/
def setInsert (l : List Nat) (x : Nat) : List Nat :=
  if x ∈ l then l else l ++ [x]

/-- Lookup in the `m_strings` path table by handle. -/
def lookupString (strings : List (Nat × String)) (path : Nat) : Option String :=
  (strings.find? (fun e => e.1 = path)).map (fun e => e.2)

/-- `std::map::insert_or_assign` on the path table. -/
def stringsAssign (strings : List (Nat × String)) (k : Nat) (v : String) :
    List (Nat × String) :=
  if (strings.find? (fun e => e.1 = k)).isSome then
    strings.map (fun e => if e.1 = k then (k, v) else e)
  else
    strings ++ [(k, v)]

/-- Core of `xrStringToPath` (interning), shared with the internal callers that
pass `XR_NULL_HANDLE`: returns the existing handle on an exact string match,
else allocates `++m_stringIndex` and records the mapping. -/
def stringToPathCore (s : RuntimeState) (str : String) : RuntimeState × Nat :=
  match s.strings.find? (fun e => e.2 = str) with
  | some e => (s, e.1)
  | none =>
    let p := s.stringIndex + 1
    ({ s with stringIndex := p, strings := stringsAssign s.strings p str }, p)

/-- `OpenXrRuntime::xrStringToPath`. -/
def xrStringToPath (s : RuntimeState) (instanceH : Nat) (str : String) :
    XrResult × RuntimeState × Nat :=
  if instanceH ≠ 0 ∧ (¬ s.instanceCreated ∨ instanceH ≠ 1) then
    (.errorHandleInvalid, s, 0)
  else
    let r := stringToPathCore s str
    (.success, r.1, r.2)

/-- Outcome of the `sprintf_s` buffer write performed by `xrPathToString`. -/
inductive BufferWrite where
  | notWritten
  | written (str : String)
  | fault
  deriving DecidableEq, Repr

/-- Model of `sprintf_s(buffer, capacity, "%s", str)` (CRT, declared outside
src/): the formatted string and its terminator must fit in `capacity`; on
success the full string is written, otherwise no string is delivered — the
buffer is set to the empty string and the invalid-parameter handler is
invoked (`fault`). -/
def sprintfS (capacity : Nat) (str : String) : BufferWrite :=
  if str.length + 1 ≤ capacity then .written str else .fault

/-- `OpenXrRuntime::xrPathToString`. The `buffer` pointer is modelled by
`hasBuffer`; the `sprintf_s` write is modelled by the returned
`BufferWrite` (performed whenever the capacity is non-zero and a buffer is
given). Returns (result, bufferCountOutput, write outcome). -/
def xrPathToString (s : RuntimeState) (instanceH : Nat) (path : Nat)
    (bufferCapacityInput : Nat) (hasBuffer : Bool) :
    XrResult × Nat × BufferWrite :=
  if instanceH ≠ 0 ∧ (¬ s.instanceCreated ∨ instanceH ≠ 1) then
    (.errorHandleInvalid, 0, .notWritten)
  else
    match lookupString s.strings path with
    | none => (.errorPathInvalid, 0, .notWritten)
    | some str =>
      if bufferCapacityInput ≠ 0 ∧ bufferCapacityInput < str.length then
        (.errorSizeInsufficient, 0, .notWritten)
      else
        (.success, str.length + 1,
          if bufferCapacityInput ≠ 0 ∧ hasBuffer then
            sprintfS bufferCapacityInput str
          else .notWritten)

/-- `OpenXrRuntime::getXrPath`. -/
def getXrPath (s : RuntimeState) (path : Nat) : String :=
  if path = 0 then ""
  else
    match lookupString s.strings path with
    | none => "<unknown>"
    | some str => str

/-- The `startsWith` string helper of utils.h (declared outside src/): test
that `sub` is a prefix of `str`. Modelled on the character list so that proofs
can evaluate it. -/
def strStartsWith (str sub : String) : Bool :=
  sub.data.isPrefixOf str.data

/-- The `endsWith` string helper of utils.h (declared outside src/): test that
`sub` is a suffix of `str`. -/
def strEndsWith (str sub : String) : Bool :=
  sub.data.isSuffixOf str.data

/-- `OpenXrRuntime::getActionPath`: concatenation of the sub-action path and
the action's bound path, inserting a separating slash when needed. -/
def getActionPath (s : RuntimeState) (a : Action) (subActionPath : Nat) : String :=
  let path := if subActionPath ≠ 0 then getXrPath s subActionPath else ""
  let path :=
    if path ≠ "" ∧ ¬ strEndsWith path "/" ∧ ¬ strStartsWith a.path "/" then
      path ++ "/"
    else path
  path ++ a.path

/-- `OpenXrRuntime::getActionSide`: hand resolution from the path prefix. -/
def getActionSide (fullPath : String) : Int :=
  if strStartsWith fullPath "/user/hand/left" then 0
  else if strStartsWith fullPath "/user/hand/right" then 1
  else -1

/-- XR_TYPE_* struct tags (values as in openxr.h; only distinctness matters). -/
def XR_TYPE_ACTION_SET_CREATE_INFO : Nat := 28
def XR_TYPE_ACTION_CREATE_INFO : Nat := 29
def XR_TYPE_INTERACTION_PROFILE_SUGGESTED_BINDING : Nat := 51
def XR_TYPE_SESSION_ACTION_SETS_ATTACH_INFO : Nat := 60
def XR_TYPE_INTERACTION_PROFILE_STATE : Nat := 63
def XR_TYPE_ACTION_STATE_GET_INFO : Nat := 58
def XR_TYPE_ACTION_STATE_BOOLEAN : Nat := 23
def XR_TYPE_ACTION_STATE_FLOAT : Nat := 24
def XR_TYPE_ACTION_STATE_VECTOR2F : Nat := 25
def XR_TYPE_ACTION_STATE_POSE : Nat := 27
def XR_TYPE_ACTIONS_SYNC_INFO : Nat := 61
def XR_TYPE_HAPTIC_ACTION_INFO : Nat := 62
def XR_TYPE_HAPTIC_VIBRATION : Nat := 593

/-- XrInteractionProfileSuggestedBinding: profile path handle plus the
(action handle, binding path handle) list. -/
structure InteractionProfileSuggestedBinding where
  typeTag : Nat
  interactionProfile : Nat
  suggestedBindings : List (Nat × Nat)

/-- `OpenXrRuntime::xrSuggestInteractionProfileBindings`. -/
def xrSuggestInteractionProfileBindings (s : RuntimeState) (instanceH : Nat)
    (sb : InteractionProfileSuggestedBinding) : XrResult × RuntimeState :=
  if sb.typeTag ≠ XR_TYPE_INTERACTION_PROFILE_SUGGESTED_BINDING then
    (.errorValidationFailure, s)
  else if ¬ s.instanceCreated ∨ instanceH ≠ 1 then (.errorHandleInvalid, s)
  else if s.activeActionSets ≠ [] then (.errorActionsetsAlreadyAttached, s)
  else
    let profile := getXrPath s sb.interactionProfile
    (.success,
      { s with suggestedBindings :=
          fun k => if k = profile then some sb.suggestedBindings
                   else s.suggestedBindings k })

/-- XrSessionActionSetsAttachInfo. -/
structure SessionActionSetsAttachInfo where
  typeTag : Nat
  actionSets : List Nat

/-- The insertion loop of `xrAttachSessionActionSets`: validates and inserts
the listed sets one by one, aborting with HandleInvalid at the first unknown
handle (insertions already made are kept). -/
def attachLoop : RuntimeState → List Nat → XrResult × RuntimeState
  | s, [] => (.success, s)
  | s, h :: t =>
    if h ∈ s.actionSets then
      attachLoop { s with activeActionSets := setInsert s.activeActionSets h } t
    else (.errorHandleInvalid, s)

/-- `OpenXrRuntime::xrAttachSessionActionSets`. -/
def xrAttachSessionActionSets (s : RuntimeState) (session : Nat)
    (attachInfo : SessionActionSetsAttachInfo) : XrResult × RuntimeState :=
  if attachInfo.typeTag ≠ XR_TYPE_SESSION_ACTION_SETS_ATTACH_INFO then
    (.errorValidationFailure, s)
  else if ¬ s.sessionCreated ∨ session ≠ 1 then (.errorHandleInvalid, s)
  else if s.activeActionSets ≠ [] then (.errorActionsetsAlreadyAttached, s)
  else attachLoop s attachInfo.actionSets

/-- `OpenXrRuntime::xrGetCurrentInteractionProfile`. Returns (result, the
`interactionProfile` path written into the XrInteractionProfileState). -/
def xrGetCurrentInteractionProfile (s : RuntimeState) (session : Nat)
    (topLevelUserPath : Nat) (stateTypeTag : Nat) : XrResult × Nat :=
  if stateTypeTag ≠ XR_TYPE_INTERACTION_PROFILE_STATE then
    (.errorValidationFailure, 0)
  else if ¬ s.sessionCreated ∨ session ≠ 1 then (.errorHandleInvalid, 0)
  else
    let side : Int :=
      if topLevelUserPath ≠ 0 then getActionSide (getXrPath s topLevelUserPath)
      else 0
    if 0 ≤ side then
      (.success, sideGet s.currentInteractionProfile (sideIndex side))
    else
      (.success, 0)

/-- The ordered fallback profile list of `rebindControllerActions`. -/
def fallbackProfiles : List String :=
  ["/interaction_profiles/oculus/touch_controller",
   "/interaction_profiles/microsoft/motion_controller",
   "/interaction_profiles/khr/simple_controller"]

/-- The fallback walk: first profile of the list present in the suggestion
store, with its binding list. -/
def findFallback (s : RuntimeState) : List String → Option (String × List (Nat × Nat))
  | [] => none
  | p :: t =>
    match s.suggestedBindings p with
    | some bs => some (p, bs)
    | none => findFallback s t

/-- `OpenXrRuntime::rebindControllerActions`. The per-profile-pair wiring
functions of `m_controllerMappingTable` are declared outside src/; the mapping
invocations the loop performs are returned as the list of (action, binding)
pairs invoked (pairs whose action handle is unknown are skipped). Returns
(new state, invoked mappings). -/
def rebindControllerActions (s : RuntimeState) (side : Fin 2) :
    RuntimeState × List (Nat × Nat) :=
  let ct := sideGet s.cachedControllerType side
  let pref :=
    if ct = "vive_controller" then
      ("/interaction_profiles/htc/vive_controller", "Vive Controller", AimPose.vive)
    else if ct = "knuckles" then
      ("/interaction_profiles/valve/index_controller", "Index Controller", AimPose.knuckles)
    else
      ("/interaction_profiles/khr/simple_controller", "Controller", AimPose.identity)
  let preferredInteractionProfile := pref.1
  let aimPose := pref.2.2
  let s := { s with localizedControllerType :=
               sideSet s.localizedControllerType side pref.2.1 }
  let found : Option (String × List (Nat × Nat)) :=
    match s.suggestedBindings preferredInteractionProfile with
    | some bs => some (preferredInteractionProfile, bs)
    | none => findFallback s fallbackProfiles
  match found with
  | some (actualInteractionProfile, bs) =>
    let applied := bs.filter (fun b => (s.actions b.1).isSome)
    let r := stringToPathCore s actualInteractionProfile
    ({ r.1 with
        currentInteractionProfile :=
          sideSet r.1.currentInteractionProfile side r.2,
        controllerAimPose := sideSet r.1.controllerAimPose side aimPose,
        currentInteractionProfileDirty := true },
      applied)
  | none =>
    ({ s with
        currentInteractionProfile := sideSet s.currentInteractionProfile side 0,
        controllerAimPose := sideSet s.controllerAimPose side AimPose.identity,
        currentInteractionProfileDirty := true },
      [])

/-- XrActionsSyncInfo: the declared (actionSet, subactionPath) pairs. -/
structure ActionsSyncInfo where
  typeTag : Nat
  activeActionSets : List (Nat × Nat)

/-- The first loop of `xrSyncActions`: validates each declared set against the
attached collection and inserts it into the frame-latched collection, aborting
with ActionSetNotAttached at the first unattached set. -/
def syncLatchLoop : RuntimeState → List (Nat × Nat) → XrResult × RuntimeState
  | s, [] => (.success, s)
  | s, e :: t =>
    if e.1 ∈ s.activeActionSets then
      syncLatchLoop
        { s with frameLatchedActionSets := setInsert s.frameLatchedActionSets e.1 } t
    else (.errorActionsetNotAttached, s)

/-- The per-side tail of `xrSyncActions`: controller-type detection (the
hardware read is the `det` input: `none` models a zero-size controller-type
property, `some t` a detected type string `t`), presence update, and the
rebind call when the detected type changed. -/
def syncSide (s : RuntimeState) (side : Fin 2) (det : Option String) :
    RuntimeState × List (Nat × Nat) :=
  let lastControllerType := sideGet s.cachedControllerType side
  let isActive := det.isSome
  let newType := det.getD ""
  let s := { s with
    isControllerActive := sideSet s.isControllerActive side isActive,
    cachedControllerType := sideSet s.cachedControllerType side newType }
  if lastControllerType ≠ newType then rebindControllerActions s side
  else (s, [])

/-- `OpenXrRuntime::xrSyncActions`. The hardware poll result is the `hwInput`
input; the per-hand controller-type detection results are `det`. -/
def xrSyncActions (s : RuntimeState) (session : Nat) (syncInfo : ActionsSyncInfo)
    (hwInput : PvrInputState) (det : Option String × Option String) :
    XrResult × RuntimeState :=
  if syncInfo.typeTag ≠ XR_TYPE_ACTIONS_SYNC_INFO then (.errorValidationFailure, s)
  else if ¬ s.sessionCreated ∨ session ≠ 1 then (.errorHandleInvalid, s)
  else
    let r := syncLatchLoop s syncInfo.activeActionSets
    if r.1 = XrResult.success then
      let s1 := { r.2 with cachedInputState := hwInput }
      let s2 := (syncSide s1 0 det.1).1
      let s3 := (syncSide s2 1 det.2).1
      (.success, s3)
    else r

/-- Conversion of the snapshot timestamp to XrTime. Modelled from the spec:
the conversion helper lives outside src/; the spec (§4.7) only requires that
`lastChangeTime` carries the snapshot timestamp, so seconds are scaled to
integer nanoseconds. -/
def pvrTimeToXrTime (t : ℚ) : Int :=
  (t * 1000000000).floor

/-- XrActionStateGetInfo. -/
structure ActionStateGetInfo where
  typeTag : Nat
  action : Nat
  subactionPath : Nat

/-- XrActionStateBoolean (the `type` tag is a function argument; `currentState`
keeps the raw XrBool32 the code stores, e.g. the masked button word). -/
structure ActionStateBoolean where
  isActive : Bool
  currentState : Nat
  changedSinceLastSync : Bool
  lastChangeTime : Int
  deriving DecidableEq, Repr

/-- XrActionStateFloat. -/
structure ActionStateFloat where
  isActive : Bool
  currentState : ℚ
  changedSinceLastSync : Bool
  lastChangeTime : Int
  deriving DecidableEq, Repr

/-- XrActionStateVector2f. -/
structure ActionStateVector2f where
  isActive : Bool
  currentState : ℚ × ℚ
  changedSinceLastSync : Bool
  lastChangeTime : Int
  deriving DecidableEq, Repr

/-- XrActionStatePose. -/
structure ActionStatePose where
  isActive : Bool
  deriving DecidableEq, Repr

/-- The state-computation section of `xrGetActionStateBoolean` (the
`isActive`/`currentState` block): returns (isActive, currentState).
`currentState` starts at the cached `lastBoolValue` and is overwritten only
when the hand is active and the owning set is frame-latched. The
`(isActive, stInit)` fallback of the inner match is unreachable: `isBound`
guarantees a button or float binding (the C++ would dereference null there). -/
def boolCompute (s : RuntimeState) (a : Action) (subactionPath : Nat) : Bool × Nat :=
  let stInit : Nat := if a.lastBoolValue then 1 else 0
  if a.path ≠ "" then
    let fullPath := getActionPath s a subactionPath
    let isBound := a.buttonMap.isSome ∨ a.floatValue.isSome
    let side := getActionSide fullPath
    if isBound ∧ 0 ≤ side then
      let i := sideIndex side
      let isActive := sideGet s.isControllerActive i
      if isActive = true ∧ a.actionSet ∈ s.frameLatchedActionSets then
        match a.buttonMap with
        | some bf =>
          (isActive, Nat.land (readButton s.cachedInputState bf i) a.buttonType)
        | none =>
          match a.floatValue with
          | some ff =>
            (isActive,
              if (99 : ℚ)/100 < readFloat s.cachedInputState ff i then 1 else 0)
          | none => (isActive, stInit)
      else (isActive, stInit)
    else (false, stInit)
  else (false, stInit)

/-- The output record of a successful boolean query: the edge-detection and
timestamp section of `xrGetActionStateBoolean` applied to the computed
(isActive, currentState). -/
def boolQueryOut (s : RuntimeState) (a : Action) (p : Nat) : ActionStateBoolean :=
  let r := boolCompute s a p
  let changed : Bool := (decide (r.2 ≠ 0)) != a.lastBoolValue
  { isActive := r.1, currentState := r.2, changedSinceLastSync := changed,
    lastChangeTime :=
      if changed then pvrTimeToXrTime s.cachedInputState.timeInSeconds
      else a.lastBoolValueChangedTime }

/-- The action record written back by a successful boolean query: the cached
value and change timestamp are updated unconditionally. -/
def boolQueryAction (s : RuntimeState) (a : Action) (p : Nat) : Action :=
  { a with lastBoolValue := (boolCompute s a p).2 ≠ 0,
           lastBoolValueChangedTime := (boolQueryOut s a p).lastChangeTime }

/-- `OpenXrRuntime::xrGetActionStateBoolean`. Returns (result, new state,
filled output record on success). -/
def xrGetActionStateBoolean (s : RuntimeState) (session : Nat)
    (getInfo : ActionStateGetInfo) (stateTypeTag : Nat) :
    XrResult × RuntimeState × Option ActionStateBoolean :=
  if getInfo.typeTag ≠ XR_TYPE_ACTION_STATE_GET_INFO ∨
      stateTypeTag ≠ XR_TYPE_ACTION_STATE_BOOLEAN then
    (.errorValidationFailure, s, none)
  else if ¬ s.sessionCreated ∨ session ≠ 1 then (.errorHandleInvalid, s, none)
  else
    match s.actions getInfo.action with
    | none => (.errorHandleInvalid, s, none)
    | some a =>
      if a.type ≠ ActionType.booleanInput then (.errorActionTypeMismatch, s, none)
      else if a.actionSet ∉ s.activeActionSets then (.errorActionsetNotAttached, s, none)
      else
        (.success,
          { s with actions := fun n =>
              if n = getInfo.action then some (boolQueryAction s a getInfo.subactionPath)
              else s.actions n },
          some (boolQueryOut s a getInfo.subactionPath))

/-- The state-computation section of `xrGetActionStateFloat`: returns
(isActive, currentState). Priority order of the source: bound float field,
else bound button field cast to 0/1, else the selected 2-axis component. The
`(isActive, a.lastFloatValue)` fallback of the inner match is unreachable
when the resolver wired a binding (the C++ would dereference null there). -/
def floatCompute (s : RuntimeState) (a : Action) (subactionPath : Nat) : Bool × ℚ :=
  if a.path ≠ "" then
    let fullPath := getActionPath s a subactionPath
    let isBound := a.floatValue.isSome ∨
      (a.vector2fValue.isSome ∧ 0 ≤ a.vector2fIndex) ∨ a.buttonMap = none
    let side := getActionSide fullPath
    if isBound ∧ 0 ≤ side then
      let i := sideIndex side
      let isActive := sideGet s.isControllerActive i
      if isActive = true ∧ a.actionSet ∈ s.frameLatchedActionSets then
        match a.floatValue with
        | some ff => (isActive, readFloat s.cachedInputState ff i)
        | none =>
          match a.buttonMap with
          | some bf =>
            (isActive,
              if Nat.land (readButton s.cachedInputState bf i) a.buttonType ≠ 0
              then 1 else 0)
          | none =>
            match a.vector2fValue with
            | some vf =>
              (isActive,
                if a.vector2fIndex = 0 then (readVec2 s.cachedInputState vf i).1
                else (readVec2 s.cachedInputState vf i).2)
            | none => (isActive, a.lastFloatValue)
      else (isActive, a.lastFloatValue)
    else (false, a.lastFloatValue)
  else (false, a.lastFloatValue)

/-- The output record of a successful float query. -/
def floatQueryOut (s : RuntimeState) (a : Action) (p : Nat) : ActionStateFloat :=
  let r := floatCompute s a p
  let changed : Bool := decide (r.2 ≠ a.lastFloatValue)
  { isActive := r.1, currentState := r.2, changedSinceLastSync := changed,
    lastChangeTime :=
      if changed then pvrTimeToXrTime s.cachedInputState.timeInSeconds
      else a.lastFloatValueChangedTime }

/-- The action record written back by a successful float query. -/
def floatQueryAction (s : RuntimeState) (a : Action) (p : Nat) : Action :=
  { a with lastFloatValue := (floatCompute s a p).2,
           lastFloatValueChangedTime := (floatQueryOut s a p).lastChangeTime }

/-- `OpenXrRuntime::xrGetActionStateFloat`. -/
def xrGetActionStateFloat (s : RuntimeState) (session : Nat)
    (getInfo : ActionStateGetInfo) (stateTypeTag : Nat) :
    XrResult × RuntimeState × Option ActionStateFloat :=
  if getInfo.typeTag ≠ XR_TYPE_ACTION_STATE_GET_INFO ∨
      stateTypeTag ≠ XR_TYPE_ACTION_STATE_FLOAT then
    (.errorValidationFailure, s, none)
  else if ¬ s.sessionCreated ∨ session ≠ 1 then (.errorHandleInvalid, s, none)
  else
    match s.actions getInfo.action with
    | none => (.errorHandleInvalid, s, none)
    | some a =>
      if a.type ≠ ActionType.floatInput then (.errorActionTypeMismatch, s, none)
      else if a.actionSet ∉ s.activeActionSets then (.errorActionsetNotAttached, s, none)
      else
        (.success,
          { s with actions := fun n =>
              if n = getInfo.action then some (floatQueryAction s a getInfo.subactionPath)
              else s.actions n },
          some (floatQueryOut s a getInfo.subactionPath))

/-- The state-computation section of `xrGetActionStateVector2f`: returns
(isActive, currentState). The `(isActive, a.lastVector2fValue)` fallback of
the inner match is unreachable given `isBound`. -/
def vec2Compute (s : RuntimeState) (a : Action) (subactionPath : Nat) :
    Bool × (ℚ × ℚ) :=
  if a.path ≠ "" then
    let fullPath := getActionPath s a subactionPath
    let isBound := a.vector2fValue.isSome
    let side := getActionSide fullPath
    if isBound ∧ 0 ≤ side then
      let i := sideIndex side
      let isActive := sideGet s.isControllerActive i
      if isActive = true ∧ a.actionSet ∈ s.frameLatchedActionSets then
        match a.vector2fValue with
        | some vf => (isActive, readVec2 s.cachedInputState vf i)
        | none => (isActive, a.lastVector2fValue)
      else (isActive, a.lastVector2fValue)
    else (false, a.lastVector2fValue)
  else (false, a.lastVector2fValue)

/-- The output record of a successful 2-axis query. -/
def vec2QueryOut (s : RuntimeState) (a : Action) (p : Nat) : ActionStateVector2f :=
  let r := vec2Compute s a p
  let changed : Bool := decide (r.2.1 ≠ a.lastVector2fValue.1 ∨
                                r.2.2 ≠ a.lastVector2fValue.2)
  { isActive := r.1, currentState := r.2, changedSinceLastSync := changed,
    lastChangeTime :=
      if changed then pvrTimeToXrTime s.cachedInputState.timeInSeconds
      else a.lastVector2fValueChangedTime }

/-- The action record written back by a successful 2-axis query. -/
def vec2QueryAction (s : RuntimeState) (a : Action) (p : Nat) : Action :=
  { a with lastVector2fValue := (vec2Compute s a p).2,
           lastVector2fValueChangedTime := (vec2QueryOut s a p).lastChangeTime }

/-- `OpenXrRuntime::xrGetActionStateVector2f`. -/
def xrGetActionStateVector2f (s : RuntimeState) (session : Nat)
    (getInfo : ActionStateGetInfo) (stateTypeTag : Nat) :
    XrResult × RuntimeState × Option ActionStateVector2f :=
  if getInfo.typeTag ≠ XR_TYPE_ACTION_STATE_GET_INFO ∨
      stateTypeTag ≠ XR_TYPE_ACTION_STATE_VECTOR2F then
    (.errorValidationFailure, s, none)
  else if ¬ s.sessionCreated ∨ session ≠ 1 then (.errorHandleInvalid, s, none)
  else
    match s.actions getInfo.action with
    | none => (.errorHandleInvalid, s, none)
    | some a =>
      if a.type ≠ ActionType.vector2fInput then (.errorActionTypeMismatch, s, none)
      else if a.actionSet ∉ s.activeActionSets then (.errorActionsetNotAttached, s, none)
      else
        (.success,
          { s with actions := fun n =>
              if n = getInfo.action then some (vec2QueryAction s a getInfo.subactionPath)
              else s.actions n },
          some (vec2QueryOut s a getInfo.subactionPath))

/-- The `isActive` computation of `xrGetActionStatePose` (no binding check:
a non-empty bound path and a resolving hand suffice). -/
def poseCompute (s : RuntimeState) (a : Action) (subactionPath : Nat) : Bool :=
  if a.path ≠ "" then
    let fullPath := getActionPath s a subactionPath
    let side := getActionSide fullPath
    if 0 ≤ side then sideGet s.isControllerActive (sideIndex side)
    else false
  else false

/-- `OpenXrRuntime::xrGetActionStatePose`. -/
def xrGetActionStatePose (s : RuntimeState) (session : Nat)
    (getInfo : ActionStateGetInfo) (stateTypeTag : Nat) :
    XrResult × RuntimeState × Option ActionStatePose :=
  if getInfo.typeTag ≠ XR_TYPE_ACTION_STATE_GET_INFO ∨
      stateTypeTag ≠ XR_TYPE_ACTION_STATE_POSE then
    (.errorValidationFailure, s, none)
  else if ¬ s.sessionCreated ∨ session ≠ 1 then (.errorHandleInvalid, s, none)
  else
    match s.actions getInfo.action with
    | none => (.errorHandleInvalid, s, none)
    | some a =>
      if a.type ≠ ActionType.poseInput then (.errorActionTypeMismatch, s, none)
      else if a.actionSet ∉ s.activeActionSets then (.errorActionsetNotAttached, s, none)
      else (.success, s, some { isActive := poseCompute s a getInfo.subactionPath })

/-- XrHapticActionInfo. -/
structure HapticActionInfo where
  typeTag : Nat
  action : Nat
  subactionPath : Nat

/-- An entry of the XrHapticBaseHeader `next` chain. -/
inductive HapticEntry where
  | vibration (duration : Int) (frequency : ℚ) (amplitude : ℚ)
  | other (typeTag : Nat)
  deriving DecidableEq, Repr

/-- The `while (entry)` walk of `xrApplyHapticFeedback`: the first entry of
the chain whose type is XR_TYPE_HAPTIC_VIBRATION. -/
def findVibration : List HapticEntry → Option (Int × ℚ × ℚ)
  | [] => none
  | .vibration d f a :: _ => some (d, f, a)
  | .other _ :: t => findVibration t

/-- `OpenXrRuntime::xrApplyHapticFeedback`. Returns (result, the
`pvr_triggerHapticPulse(side, amplitude)` hardware calls performed). -/
def xrApplyHapticFeedback (s : RuntimeState) (session : Nat)
    (info : HapticActionInfo) (hapticFeedback : List HapticEntry) :
    XrResult × List (Fin 2 × ℚ) :=
  if info.typeTag ≠ XR_TYPE_HAPTIC_ACTION_INFO then (.errorValidationFailure, [])
  else if ¬ s.sessionCreated ∨ session ≠ 1 then (.errorHandleInvalid, [])
  else
    match s.actions info.action with
    | none => (.errorHandleInvalid, [])
    | some a =>
      if a.type ≠ ActionType.vibrationOutput then (.errorActionTypeMismatch, [])
      else if a.actionSet ∉ s.activeActionSets then (.errorActionsetNotAttached, [])
      else
        if a.path ≠ "" then
          let fullPath := getActionPath s a info.subactionPath
          let isOutput := strEndsWith fullPath "/output/haptic"
          let side := getActionSide fullPath
          if isOutput ∧ 0 ≤ side then
            match findVibration hapticFeedback with
            | some v =>
              if 0 < v.2.2 then (.success, [(sideIndex side, v.2.2)])
              else (.success, [])
            | none => (.success, [])
          else (.success, [])
        else (.success, [])

/-- An all-zero input snapshot, used by the concrete instances below. -/
def input0 : PvrInputState :=
  { timeInSeconds := 0, handButtons := (0, 0), handTouches := (0, 0),
    trigger := (0, 0), grip := (0, 0), gripForce := (0, 0),
    joyStick := ((0, 0), (0, 0)), touchPad := ((0, 0), (0, 0)),
    touchPadForce := (0, 0), fingerIndex := (0, 0), fingerMiddle := (0, 0),
    fingerRing := (0, 0), fingerPinky := (0, 0) }

/-- A base runtime state: created instance and session, one action set
(handle 1), nothing attached, empty tables. Used by the concrete instances
below. -/
def state0 : RuntimeState :=
  { instanceCreated := true, sessionCreated := true, strings := [],
    stringIndex := 0, actionSets := [1], actions := fun _ => none,
    activeActionSets := [], frameLatchedActionSets := [],
    suggestedBindings := fun _ => none, isControllerActive := (false, false),
    cachedControllerType := ("", ""), localizedControllerType := ("", ""),
    currentInteractionProfile := (0, 0),
    controllerAimPose := (AimPose.identity, AimPose.identity),
    cachedInputState := input0, currentInteractionProfileDirty := false }

/-- A concrete resolver state: action 5 exists, the suggestion list [(5, 7)]
is stored for the khr/simple_controller profile, and no controller type is
cached for either hand (both absent). -/
def stateSimpleSuggested : RuntimeState :=
  { state0 with
      actions := fun n =>
        if n = 5 then some { type := ActionType.booleanInput, actionSet := 1 }
        else none,
      suggestedBindings := fun k =>
        if k = "/interaction_profiles/khr/simple_controller" then some [(5, 7)]
        else none }

/-- A concrete boolean action in set 1, bound to the left select-click button
(mask 1 on the button-press word). -/
def actSelectLeft : Action :=
  { type := ActionType.booleanInput, actionSet := 1,
    path := "/user/hand/left/input/select/click",
    buttonMap := some ButtonField.handButtons, buttonType := 1 }

/-- A concrete query state: action 5 is `actSelectLeft`; set 1 is attached
but NOT frame-latched; the left controller is present. -/
def stateNotLatched : RuntimeState :=
  { state0 with
      actions := fun n => if n = 5 then some actSelectLeft else none,
      activeActionSets := [1],
      isControllerActive := (true, false) }

/-- Like `stateNotLatched`, but with set 1 frame-latched and the left button
word reading 5 in the latched snapshot. -/
def stateLatched : RuntimeState :=
  { stateNotLatched with
      frameLatchedActionSets := [1],
      cachedInputState := { input0 with handButtons := (5, 0) } }

/-- The get-info record querying action 5 with no sub-action path. -/
def getInfo5 : ActionStateGetInfo :=
  { typeTag := XR_TYPE_ACTION_STATE_GET_INFO, action := 5, subactionPath := 0 }

/-! Helper lemmas. -/

theorem sideGet_sideSet {α : Type} (p : α × α) (i : Fin 2) (v : α) :
    sideGet (sideSet p i v) i = v := by
  unfold sideGet sideSet
  fin_cases i <;> simp

theorem sideGet_sideSet_other {α : Type} (p : α × α) (i j : Fin 2) (v : α)
    (h : i ≠ j) : sideGet (sideSet p j v) i = sideGet p i := by
  unfold sideGet sideSet
  fin_cases i <;> fin_cases j <;> simp_all

theorem setInsert_mem (l : List Nat) (x y : Nat) :
    y ∈ setInsert l x ↔ y ∈ l ∨ y = x := by
  unfold setInsert
  split
  · next hx =>
    constructor
    · exact fun h => Or.inl h
    · rintro (h | rfl)
      · exact h
      · exact hx
  · simp [List.mem_append]

theorem stringToPathCore_frameLatched (s : RuntimeState) (str : String) :
    (stringToPathCore s str).1.frameLatchedActionSets =
      s.frameLatchedActionSets := by
  unfold stringToPathCore
  split <;> rfl

theorem rebind_frameLatched (s : RuntimeState) (side : Fin 2) :
    (rebindControllerActions s side).1.frameLatchedActionSets =
      s.frameLatchedActionSets := by
  simp only [rebindControllerActions]
  split
  · simp [stringToPathCore_frameLatched]
  · rfl

theorem syncSide_frameLatched (s : RuntimeState) (side : Fin 2)
    (det : Option String) :
    (syncSide s side det).1.frameLatchedActionSets =
      s.frameLatchedActionSets := by
  simp only [syncSide]
  split
  · rw [rebind_frameLatched]
  · rfl

theorem stringToPathCore_isControllerActive (s : RuntimeState) (str : String) :
    (stringToPathCore s str).1.isControllerActive = s.isControllerActive := by
  unfold stringToPathCore
  split <;> rfl

theorem rebind_isControllerActive (s : RuntimeState) (side : Fin 2) :
    (rebindControllerActions s side).1.isControllerActive =
      s.isControllerActive := by
  simp only [rebindControllerActions]
  split
  · simp [stringToPathCore_isControllerActive]
  · rfl

theorem syncSide_isControllerActive (s : RuntimeState) (side : Fin 2)
    (det : Option String) :
    (syncSide s side det).1.isControllerActive =
      sideSet s.isControllerActive side det.isSome := by
  simp only [syncSide]
  split
  · rw [rebind_isControllerActive]
  · rfl

theorem syncLatchLoop_mem (l : List (Nat × Nat)) :
    ∀ (s : RuntimeState) (x : Nat),
      (syncLatchLoop s l).1 = XrResult.success →
      (x ∈ (syncLatchLoop s l).2.frameLatchedActionSets ↔
        x ∈ s.frameLatchedActionSets ∨ x ∈ l.map Prod.fst) := by
  induction l with
  | nil => intro s x _; simp [syncLatchLoop]
  | cons e t ih =>
    intro s x hs
    unfold syncLatchLoop at hs ⊢
    by_cases he : e.1 ∈ s.activeActionSets
    · rw [if_pos he] at hs ⊢
      rw [ih _ x hs]
      simp only [setInsert_mem, List.map_cons, List.mem_cons]
      tauto
    · rw [if_neg he] at hs
      exact absurd hs (by simp)

/-! Helper lemmas (continued). -/

theorem attachLoop_sessionCreated (l : List Nat) :
    ∀ s : RuntimeState, (attachLoop s l).2.sessionCreated = s.sessionCreated := by
  induction l with
  | nil => intro s; rfl
  | cons h t ih =>
    intro s
    unfold attachLoop
    split
    · exact ih _
    · rfl

theorem attachLoop_instanceCreated (l : List Nat) :
    ∀ s : RuntimeState, (attachLoop s l).2.instanceCreated = s.instanceCreated := by
  induction l with
  | nil => intro s; rfl
  | cons h t ih =>
    intro s
    unfold attachLoop
    split
    · exact ih _
    · rfl

theorem attachLoop_active_mem (l : List Nat) :
    ∀ (s : RuntimeState) (x : Nat),
      x ∈ (attachLoop s l).2.activeActionSets ↔
        x ∈ s.activeActionSets ∨
        x ∈ l.takeWhile (fun h => decide (h ∈ s.actionSets)) := by
  induction l with
  | nil => intro s x; simp [attachLoop]
  | cons h t ih =>
    intro s x
    unfold attachLoop
    by_cases hh : h ∈ s.actionSets
    · rw [if_pos hh]
      rw [ih]
      rw [List.takeWhile_cons, if_pos (by simpa using hh)]
      simp only [setInsert_mem, List.mem_cons]
      tauto
    · rw [if_neg hh]
      rw [List.takeWhile_cons, if_neg (by simpa using hh)]
      simp

theorem attachLoop_success_nonempty (l : List Nat) (s : RuntimeState)
    (hl : l ≠ []) (hs : (attachLoop s l).1 = XrResult.success) :
    (attachLoop s l).2.activeActionSets ≠ [] := by
  cases l with
  | nil => exact absurd rfl hl
  | cons h t =>
    have hh : h ∈ s.actionSets := by
      by_contra hc
      unfold attachLoop at hs
      rw [if_neg hc] at hs
      exact XrResult.noConfusion hs
    have hmem : h ∈ (attachLoop s (h :: t)).2.activeActionSets := by
      rw [attachLoop_active_mem]
      right
      simp [List.takeWhile_cons, hh]
    exact List.ne_nil_of_mem hmem

theorem attachLoop_fail (l : List Nat) :
    ∀ s : RuntimeState, (∃ h ∈ l, h ∉ s.actionSets) →
      (attachLoop s l).1 = XrResult.errorHandleInvalid := by
  induction l with
  | nil => intro s hbad; simp at hbad
  | cons h t ih =>
    intro s hbad
    unfold attachLoop
    by_cases hh : h ∈ s.actionSets
    · rw [if_pos hh]
      apply ih
      obtain ⟨g, hg, hgbad⟩ := hbad
      rcases List.mem_cons.mp hg with rfl | hg2
      · exact absurd hh hgbad
      · exact ⟨g, hg2, hgbad⟩
    · rw [if_neg hh]

theorem getActionPath_congr (s1 s2 : RuntimeState) (a1 a2 : Action) (p : Nat)
    (hs : s1.strings = s2.strings) (hp : a1.path = a2.path) :
    getActionPath s1 a1 p = getActionPath s2 a2 p := by
  unfold getActionPath getXrPath
  rw [hs, hp]

theorem boolCompute_fst_iff (s : RuntimeState) (a : Action) (p : Nat) :
    (boolCompute s a p).1 = true ↔
      a.path ≠ "" ∧ (a.buttonMap.isSome = true ∨ a.floatValue.isSome = true) ∧
      0 ≤ getActionSide (getActionPath s a p) ∧
      sideGet s.isControllerActive
        (sideIndex (getActionSide (getActionPath s a p))) = true := by
  rcases hbm : a.buttonMap with _ | bf <;>
    rcases hfv : a.floatValue with _ | ff <;>
    by_cases hp : a.path ≠ "" <;>
    by_cases hside : 0 ≤ getActionSide (getActionPath s a p) <;>
    by_cases hact : sideGet s.isControllerActive
      (sideIndex (getActionSide (getActionPath s a p))) = true <;>
    by_cases hmem : a.actionSet ∈ s.frameLatchedActionSets <;>
    simp [boolCompute, hbm, hfv, hp, hside, hact, hmem]

theorem xrGetActionStateBoolean_success (s : RuntimeState)
    (gi : ActionStateGetInfo) (a : Action)
    (hty : gi.typeTag = XR_TYPE_ACTION_STATE_GET_INFO)
    (hsess : s.sessionCreated = true)
    (ha : s.actions gi.action = some a)
    (htype : a.type = ActionType.booleanInput)
    (hatt : a.actionSet ∈ s.activeActionSets) :
    xrGetActionStateBoolean s 1 gi XR_TYPE_ACTION_STATE_BOOLEAN =
      (XrResult.success,
       { s with actions := fun n =>
           if n = gi.action then some (boolQueryAction s a gi.subactionPath)
           else s.actions n },
       some (boolQueryOut s a gi.subactionPath)) := by
  simp [xrGetActionStateBoolean, hty, hsess, ha, htype, hatt]

theorem floatCompute_fst_iff (s : RuntimeState) (a : Action) (p : Nat) :
    (floatCompute s a p).1 = true ↔
      a.path ≠ "" ∧
      (a.floatValue.isSome = true ∨
        (a.vector2fValue.isSome = true ∧ 0 ≤ a.vector2fIndex) ∨
        a.buttonMap = none) ∧
      0 ≤ getActionSide (getActionPath s a p) ∧
      sideGet s.isControllerActive
        (sideIndex (getActionSide (getActionPath s a p))) = true := by
  rcases hbm : a.buttonMap with _ | bf <;>
    rcases hfv : a.floatValue with _ | ff <;>
    rcases hv2 : a.vector2fValue with _ | vf <;>
    by_cases hidx : 0 ≤ a.vector2fIndex <;>
    by_cases hp : a.path ≠ "" <;>
    by_cases hside : 0 ≤ getActionSide (getActionPath s a p) <;>
    by_cases hact : sideGet s.isControllerActive
      (sideIndex (getActionSide (getActionPath s a p))) = true <;>
    by_cases hmem : a.actionSet ∈ s.frameLatchedActionSets <;>
    simp [floatCompute, hbm, hfv, hv2, hidx, hp, hside, hact, hmem]

theorem vec2Compute_fst_iff (s : RuntimeState) (a : Action) (p : Nat) :
    (vec2Compute s a p).1 = true ↔
      a.path ≠ "" ∧ a.vector2fValue.isSome = true ∧
      0 ≤ getActionSide (getActionPath s a p) ∧
      sideGet s.isControllerActive
        (sideIndex (getActionSide (getActionPath s a p))) = true := by
  rcases hv2 : a.vector2fValue with _ | vf <;>
    by_cases hp : a.path ≠ "" <;>
    by_cases hside : 0 ≤ getActionSide (getActionPath s a p) <;>
    by_cases hact : sideGet s.isControllerActive
      (sideIndex (getActionSide (getActionPath s a p))) = true <;>
    by_cases hmem : a.actionSet ∈ s.frameLatchedActionSets <;>
    simp [vec2Compute, hv2, hp, hside, hact, hmem]

theorem poseCompute_iff (s : RuntimeState) (a : Action) (p : Nat) :
    poseCompute s a p = true ↔
      a.path ≠ "" ∧ 0 ≤ getActionSide (getActionPath s a p) ∧
      sideGet s.isControllerActive
        (sideIndex (getActionSide (getActionPath s a p))) = true := by
  by_cases hp : a.path ≠ "" <;>
    by_cases hside : 0 ≤ getActionSide (getActionPath s a p) <;>
    by_cases hact : sideGet s.isControllerActive
      (sideIndex (getActionSide (getActionPath s a p))) = true <;>
    simp [poseCompute, hp, hside, hact]

theorem xrGetActionStateFloat_success (s : RuntimeState)
    (gi : ActionStateGetInfo) (a : Action)
    (hty : gi.typeTag = XR_TYPE_ACTION_STATE_GET_INFO)
    (hsess : s.sessionCreated = true)
    (ha : s.actions gi.action = some a)
    (htype : a.type = ActionType.floatInput)
    (hatt : a.actionSet ∈ s.activeActionSets) :
    xrGetActionStateFloat s 1 gi XR_TYPE_ACTION_STATE_FLOAT =
      (XrResult.success,
       { s with actions := fun n =>
           if n = gi.action then some (floatQueryAction s a gi.subactionPath)
           else s.actions n },
       some (floatQueryOut s a gi.subactionPath)) := by
  simp [xrGetActionStateFloat, hty, hsess, ha, htype, hatt]

theorem xrGetActionStateVector2f_success (s : RuntimeState)
    (gi : ActionStateGetInfo) (a : Action)
    (hty : gi.typeTag = XR_TYPE_ACTION_STATE_GET_INFO)
    (hsess : s.sessionCreated = true)
    (ha : s.actions gi.action = some a)
    (htype : a.type = ActionType.vector2fInput)
    (hatt : a.actionSet ∈ s.activeActionSets) :
    xrGetActionStateVector2f s 1 gi XR_TYPE_ACTION_STATE_VECTOR2F =
      (XrResult.success,
       { s with actions := fun n =>
           if n = gi.action then some (vec2QueryAction s a gi.subactionPath)
           else s.actions n },
       some (vec2QueryOut s a gi.subactionPath)) := by
  simp [xrGetActionStateVector2f, hty, hsess, ha, htype, hatt]

theorem xrGetActionStatePose_success (s : RuntimeState)
    (gi : ActionStateGetInfo) (a : Action)
    (hty : gi.typeTag = XR_TYPE_ACTION_STATE_GET_INFO)
    (hsess : s.sessionCreated = true)
    (ha : s.actions gi.action = some a)
    (htype : a.type = ActionType.poseInput)
    (hatt : a.actionSet ∈ s.activeActionSets) :
    xrGetActionStatePose s 1 gi XR_TYPE_ACTION_STATE_POSE =
      (XrResult.success, s,
       some { isActive := poseCompute s a gi.subactionPath }) := by
  simp [xrGetActionStatePose, hty, hsess, ha, htype, hatt]

theorem boolCompute_repeat (s : RuntimeState) (f : Nat → Option Action)
    (a : Action) (p : Nat) :
    boolCompute { s with actions := f } (boolQueryAction s a p) p =
      boolCompute s a p := by
  have hpath : (boolQueryAction s a p).path = a.path := rfl
  have hbm2 : (boolQueryAction s a p).buttonMap = a.buttonMap := rfl
  have hbt2 : (boolQueryAction s a p).buttonType = a.buttonType := rfl
  have hfv2 : (boolQueryAction s a p).floatValue = a.floatValue := rfl
  have has2 : (boolQueryAction s a p).actionSet = a.actionSet := rfl
  have hlb2 : (boolQueryAction s a p).lastBoolValue =
      decide ((boolCompute s a p).2 ≠ 0) := rfl
  have hgp : getActionPath { s with actions := f } (boolQueryAction s a p) p =
      getActionPath s a p := getActionPath_congr _ _ _ _ _ rfl rfl
  generalize hA : boolQueryAction s a p = a2
  rw [hA] at hpath hbm2 hbt2 hfv2 has2 hlb2 hgp
  rcases hbm : a.buttonMap with _ | bf <;>
    rcases hfv : a.floatValue with _ | ff <;>
    by_cases hp : a.path ≠ "" <;>
    by_cases hside : 0 ≤ getActionSide (getActionPath s a p) <;>
    by_cases hact : sideGet s.isControllerActive
      (sideIndex (getActionSide (getActionPath s a p))) = true <;>
    by_cases hmem : a.actionSet ∈ s.frameLatchedActionSets <;>
    by_cases hlb : a.lastBoolValue = true <;>
    simp [boolCompute, hgp, hpath, hbm2, hbt2, hfv2, has2, hlb2, hbm, hfv,
      hp, hside, hact, hmem, hlb]

theorem floatCompute_repeat (s : RuntimeState) (f : Nat → Option Action)
    (a : Action) (p : Nat) :
    floatCompute { s with actions := f } (floatQueryAction s a p) p =
      floatCompute s a p := by
  have hpath : (floatQueryAction s a p).path = a.path := rfl
  have hbm2 : (floatQueryAction s a p).buttonMap = a.buttonMap := rfl
  have hbt2 : (floatQueryAction s a p).buttonType = a.buttonType := rfl
  have hfv2 : (floatQueryAction s a p).floatValue = a.floatValue := rfl
  have hv22 : (floatQueryAction s a p).vector2fValue = a.vector2fValue := rfl
  have hvi2 : (floatQueryAction s a p).vector2fIndex = a.vector2fIndex := rfl
  have has2 : (floatQueryAction s a p).actionSet = a.actionSet := rfl
  have hlf2 : (floatQueryAction s a p).lastFloatValue =
      (floatCompute s a p).2 := rfl
  have hgp : getActionPath { s with actions := f } (floatQueryAction s a p) p =
      getActionPath s a p := getActionPath_congr _ _ _ _ _ rfl rfl
  generalize hA : floatQueryAction s a p = a2
  rw [hA] at hpath hbm2 hbt2 hfv2 hv22 hvi2 has2 hlf2 hgp
  rcases hbm : a.buttonMap with _ | bf <;>
    rcases hfv : a.floatValue with _ | ff <;>
    rcases hv2 : a.vector2fValue with _ | vf <;>
    by_cases hidx : 0 ≤ a.vector2fIndex <;>
    by_cases hp : a.path ≠ "" <;>
    by_cases hside : 0 ≤ getActionSide (getActionPath s a p) <;>
    by_cases hact : sideGet s.isControllerActive
      (sideIndex (getActionSide (getActionPath s a p))) = true <;>
    by_cases hmem : a.actionSet ∈ s.frameLatchedActionSets <;>
    simp [floatCompute, hgp, hpath, hbm2, hbt2, hfv2, hv22, hvi2, has2, hlf2,
      hbm, hfv, hv2, hidx, hp, hside, hact, hmem]

theorem vec2Compute_repeat (s : RuntimeState) (f : Nat → Option Action)
    (a : Action) (p : Nat) :
    vec2Compute { s with actions := f } (vec2QueryAction s a p) p =
      vec2Compute s a p := by
  have hpath : (vec2QueryAction s a p).path = a.path := rfl
  have hv22 : (vec2QueryAction s a p).vector2fValue = a.vector2fValue := rfl
  have has2 : (vec2QueryAction s a p).actionSet = a.actionSet := rfl
  have hlv2 : (vec2QueryAction s a p).lastVector2fValue =
      (vec2Compute s a p).2 := rfl
  have hgp : getActionPath { s with actions := f } (vec2QueryAction s a p) p =
      getActionPath s a p := getActionPath_congr _ _ _ _ _ rfl rfl
  generalize hA : vec2QueryAction s a p = a2
  rw [hA] at hpath hv22 has2 hlv2 hgp
  rcases hv2 : a.vector2fValue with _ | vf <;>
    by_cases hp : a.path ≠ "" <;>
    by_cases hside : 0 ≤ getActionSide (getActionPath s a p) <;>
    by_cases hact : sideGet s.isControllerActive
      (sideIndex (getActionSide (getActionPath s a p))) = true <;>
    by_cases hmem : a.actionSet ∈ s.frameLatchedActionSets <;>
    simp [vec2Compute, hgp, hpath, hv22, has2, hlv2, hv2, hp, hside, hact,
      hmem]

theorem boolQueryOut_repeat (s : RuntimeState) (f : Nat → Option Action)
    (a : Action) (p : Nat) :
    (boolQueryOut { s with actions := f } (boolQueryAction s a p) p).currentState =
      (boolQueryOut s a p).currentState ∧
    (boolQueryOut { s with actions := f }
      (boolQueryAction s a p) p).changedSinceLastSync = false := by
  constructor
  · show (boolCompute { s with actions := f } (boolQueryAction s a p) p).2 =
      (boolCompute s a p).2
    rw [boolCompute_repeat]
  · show ((decide ((boolCompute { s with actions := f }
        (boolQueryAction s a p) p).2 ≠ 0)) !=
        (boolQueryAction s a p).lastBoolValue) = false
    rw [boolCompute_repeat]
    show ((decide ((boolCompute s a p).2 ≠ 0)) !=
      (decide ((boolCompute s a p).2 ≠ 0))) = false
    exact bne_self_eq_false _

theorem floatQueryOut_repeat (s : RuntimeState) (f : Nat → Option Action)
    (a : Action) (p : Nat) :
    (floatQueryOut { s with actions := f } (floatQueryAction s a p) p).currentState =
      (floatQueryOut s a p).currentState ∧
    (floatQueryOut { s with actions := f }
      (floatQueryAction s a p) p).changedSinceLastSync = false := by
  constructor
  · show (floatCompute { s with actions := f } (floatQueryAction s a p) p).2 =
      (floatCompute s a p).2
    rw [floatCompute_repeat]
  · show (decide ((floatCompute { s with actions := f }
        (floatQueryAction s a p) p).2 ≠ (floatQueryAction s a p).lastFloatValue)) =
      false
    rw [floatCompute_repeat]
    show (decide ((floatCompute s a p).2 ≠ (floatCompute s a p).2)) = false
    simp

theorem vec2QueryOut_repeat (s : RuntimeState) (f : Nat → Option Action)
    (a : Action) (p : Nat) :
    (vec2QueryOut { s with actions := f } (vec2QueryAction s a p) p).currentState =
      (vec2QueryOut s a p).currentState ∧
    (vec2QueryOut { s with actions := f }
      (vec2QueryAction s a p) p).changedSinceLastSync = false := by
  constructor
  · show (vec2Compute { s with actions := f } (vec2QueryAction s a p) p).2 =
      (vec2Compute s a p).2
    rw [vec2Compute_repeat]
  · show (decide ((vec2Compute { s with actions := f }
          (vec2QueryAction s a p) p).2.1 ≠ (vec2QueryAction s a p).lastVector2fValue.1 ∨
        (vec2Compute { s with actions := f }
          (vec2QueryAction s a p) p).2.2 ≠ (vec2QueryAction s a p).lastVector2fValue.2)) =
      false
    rw [vec2Compute_repeat]
    show (decide ((vec2Compute s a p).2.1 ≠ (vec2Compute s a p).2.1 ∨
      (vec2Compute s a p).2.2 ≠ (vec2Compute s a p).2.2)) = false
    simp

/-! Claim theorems. -/

/-- C5 counterexample: in a state where the left hand's detected controller
type is absent (cached type empty, hand inactive) but a suggestion list is
stored for khr/simple_controller, running the resolver for the left hand sets
a non-null interaction profile and applies the suggested-binding mapping to
the pair (5, 7), contradicting the claim that an absent controller yields a
null profile and no mapping application. -/
theorem C5_counterexample :
    sideGet stateSimpleSuggested.cachedControllerType 0 = "" ∧
    sideGet stateSimpleSuggested.isControllerActive 0 = false ∧
    (rebindControllerActions stateSimpleSuggested 0).2 = [(5, 7)] ∧
    sideGet (rebindControllerActions stateSimpleSuggested 0).1.currentInteractionProfile 0 ≠ 0 := by
  refine ⟨rfl, rfl, by decide, by decide⟩

/-- C5 (amended): a hand whose controller is not physically present is
reported inactive after a successful synchronize (the presence flag is
false), but the resolver treats the absent/empty controller type as the
generic simple controller: the hand's interaction profile becomes null and no
suggested-binding mapping is applied only when no suggestion list exists for
the simple-controller profile or any fallback profile; in that case the
aim-pose offset also resets to identity. -/
theorem C5_absent_controller_resolution :
    (∀ (s s2 : RuntimeState) (info : ActionsSyncInfo) (hw : PvrInputState)
        (det : Option String × Option String) (side : Fin 2),
      xrSyncActions s 1 info hw det = (XrResult.success, s2) →
      sideGet det side = none →
      sideGet s2.isControllerActive side = false) ∧
    (∀ (s : RuntimeState) (side : Fin 2),
      sideGet s.cachedControllerType side = "" →
      s.suggestedBindings "/interaction_profiles/khr/simple_controller" = none →
      s.suggestedBindings "/interaction_profiles/oculus/touch_controller" = none →
      s.suggestedBindings "/interaction_profiles/microsoft/motion_controller" = none →
      (rebindControllerActions s side).2 = [] ∧
      sideGet (rebindControllerActions s side).1.currentInteractionProfile side = 0 ∧
      sideGet (rebindControllerActions s side).1.controllerAimPose side =
        AimPose.identity) := by
  constructor
  · intro s s2 info hw det side hok hdet
    simp only [xrSyncActions] at hok
    by_cases hty : info.typeTag ≠ XR_TYPE_ACTIONS_SYNC_INFO
    · rw [if_pos hty] at hok
      simp at hok
    · rw [if_neg hty] at hok
      by_cases hsess : ¬(s.sessionCreated = true) ∨ (1 : Nat) ≠ 1
      · rw [if_pos hsess] at hok
        simp at hok
      · rw [if_neg hsess] at hok
        by_cases hr : (syncLatchLoop s info.activeActionSets).1 = XrResult.success
        · rw [if_pos hr] at hok
          have hs2 : s2 =
              (syncSide (syncSide
                { (syncLatchLoop s info.activeActionSets).2 with
                    cachedInputState := hw } 0 det.1).1 1 det.2).1 := by
            have h := congrArg Prod.snd hok
            simpa using h.symm
          rw [hs2, syncSide_isControllerActive, syncSide_isControllerActive]
          show sideGet (det.1.isSome, det.2.isSome) side = false
          unfold sideGet at hdet ⊢
          by_cases h0 : side = 0
          · rw [if_pos h0] at hdet ⊢
            simp [hdet]
          · rw [if_neg h0] at hdet ⊢
            simp [hdet]
        · rw [if_neg hr] at hok
          exact absurd (congrArg Prod.fst hok) (by simpa using hr)
  · intro s side habsent hsimple htouch hmotion
    simp only [rebindControllerActions]
    rw [habsent]
    simp only [findFallback, fallbackProfiles, hsimple, htouch, hmotion]
    simp [hsimple, sideGet_sideSet]

/-- C5 witness: the amended theorem at concrete inputs: a successful
synchronize of the base state with both controllers absent leaves the left
hand inactive, and running the resolver for the right hand of the base state
(no suggestions stored at all) yields no applied mappings, a null interaction
profile and the identity aim pose. -/
theorem C5_absent_controller_resolution_witness :
    sideGet (xrSyncActions state0 1
        { typeTag := XR_TYPE_ACTIONS_SYNC_INFO, activeActionSets := [] }
        input0 (none, none)).2.isControllerActive 0 = false ∧
    (rebindControllerActions state0 1).2 = [] ∧
    sideGet (rebindControllerActions state0 1).1.currentInteractionProfile 1 = 0 ∧
    sideGet (rebindControllerActions state0 1).1.controllerAimPose 1 =
      AimPose.identity := by
  have h1 := C5_absent_controller_resolution.1 state0
    (xrSyncActions state0 1
      { typeTag := XR_TYPE_ACTIONS_SYNC_INFO, activeActionSets := [] }
      input0 (none, none)).2
    { typeTag := XR_TYPE_ACTIONS_SYNC_INFO, activeActionSets := [] }
    input0 (none, none) 0 rfl rfl
  have h2 := C5_absent_controller_resolution.2 state0 1 rfl rfl rfl rfl
  exact ⟨h1, h2.1, h2.2.1, h2.2.2⟩

/-- C1 counterexample: a boolean action bound to the left select-click
button, with its set attached and the left controller present but the set NOT
frame-latched (no synchronize declared it): the query succeeds and reports
isActive = true, although the claim requires isActive = false when the owning
set was not latched in the most recent synchronize. -/
theorem C1_counterexample :
    (xrGetActionStateBoolean stateNotLatched 1 getInfo5
        XR_TYPE_ACTION_STATE_BOOLEAN).1 = XrResult.success ∧
    (1 : Nat) ∉ stateNotLatched.frameLatchedActionSets ∧
    ((xrGetActionStateBoolean stateNotLatched 1 getInfo5
        XR_TYPE_ACTION_STATE_BOOLEAN).2.2.map ActionStateBoolean.isActive) =
      some true := by
  refine ⟨rfl, by decide, rfl⟩

/-- C1 (amended): for every successful action-state query of the four types,
isActive is true exactly when the action has a resolved binding of the kind
the query reads (for Boolean: a button or float reference; for Float: the
code's bound test — a float reference, a 2-axis reference with non-negative
component index, or no button reference; for Vector2f: a 2-axis reference;
for Pose: a non-empty bound path only), the full action path resolves to a
hand, and that hand's controller is currently detected present. Whether the
owning set was declared active (latched) in the most recent synchronize does
not affect isActive; latching only gates the fresh currentState computation. -/
theorem C1_isActive_characterization :
    (∀ (s : RuntimeState) (gi : ActionStateGetInfo) (a : Action)
        (out : ActionStateBoolean),
      gi.typeTag = XR_TYPE_ACTION_STATE_GET_INFO → s.sessionCreated = true →
      s.actions gi.action = some a → a.type = ActionType.booleanInput →
      a.actionSet ∈ s.activeActionSets →
      (xrGetActionStateBoolean s 1 gi XR_TYPE_ACTION_STATE_BOOLEAN).2.2 =
        some out →
      (out.isActive = true ↔
        a.path ≠ "" ∧ (a.buttonMap.isSome = true ∨ a.floatValue.isSome = true) ∧
        0 ≤ getActionSide (getActionPath s a gi.subactionPath) ∧
        sideGet s.isControllerActive
          (sideIndex (getActionSide (getActionPath s a gi.subactionPath))) =
          true)) ∧
    (∀ (s : RuntimeState) (gi : ActionStateGetInfo) (a : Action)
        (out : ActionStateFloat),
      gi.typeTag = XR_TYPE_ACTION_STATE_GET_INFO → s.sessionCreated = true →
      s.actions gi.action = some a → a.type = ActionType.floatInput →
      a.actionSet ∈ s.activeActionSets →
      (xrGetActionStateFloat s 1 gi XR_TYPE_ACTION_STATE_FLOAT).2.2 =
        some out →
      (out.isActive = true ↔
        a.path ≠ "" ∧
        (a.floatValue.isSome = true ∨
          (a.vector2fValue.isSome = true ∧ 0 ≤ a.vector2fIndex) ∨
          a.buttonMap = none) ∧
        0 ≤ getActionSide (getActionPath s a gi.subactionPath) ∧
        sideGet s.isControllerActive
          (sideIndex (getActionSide (getActionPath s a gi.subactionPath))) =
          true)) ∧
    (∀ (s : RuntimeState) (gi : ActionStateGetInfo) (a : Action)
        (out : ActionStateVector2f),
      gi.typeTag = XR_TYPE_ACTION_STATE_GET_INFO → s.sessionCreated = true →
      s.actions gi.action = some a → a.type = ActionType.vector2fInput →
      a.actionSet ∈ s.activeActionSets →
      (xrGetActionStateVector2f s 1 gi XR_TYPE_ACTION_STATE_VECTOR2F).2.2 =
        some out →
      (out.isActive = true ↔
        a.path ≠ "" ∧ a.vector2fValue.isSome = true ∧
        0 ≤ getActionSide (getActionPath s a gi.subactionPath) ∧
        sideGet s.isControllerActive
          (sideIndex (getActionSide (getActionPath s a gi.subactionPath))) =
          true)) ∧
    (∀ (s : RuntimeState) (gi : ActionStateGetInfo) (a : Action)
        (out : ActionStatePose),
      gi.typeTag = XR_TYPE_ACTION_STATE_GET_INFO → s.sessionCreated = true →
      s.actions gi.action = some a → a.type = ActionType.poseInput →
      a.actionSet ∈ s.activeActionSets →
      (xrGetActionStatePose s 1 gi XR_TYPE_ACTION_STATE_POSE).2.2 = some out →
      (out.isActive = true ↔
        a.path ≠ "" ∧ 0 ≤ getActionSide (getActionPath s a gi.subactionPath) ∧
        sideGet s.isControllerActive
          (sideIndex (getActionSide (getActionPath s a gi.subactionPath))) =
          true)) := by
  refine ⟨?_, ?_, ?_, ?_⟩
  · intro s gi a out hty hsess ha htype hatt hout
    rw [xrGetActionStateBoolean_success s gi a hty hsess ha htype hatt] at hout
    have hZ : boolQueryOut s a gi.subactionPath = out := by simpa using hout
    rw [← hZ]
    exact boolCompute_fst_iff s a gi.subactionPath
  · intro s gi a out hty hsess ha htype hatt hout
    rw [xrGetActionStateFloat_success s gi a hty hsess ha htype hatt] at hout
    have hZ : floatQueryOut s a gi.subactionPath = out := by simpa using hout
    rw [← hZ]
    exact floatCompute_fst_iff s a gi.subactionPath
  · intro s gi a out hty hsess ha htype hatt hout
    rw [xrGetActionStateVector2f_success s gi a hty hsess ha htype hatt] at hout
    have hZ : vec2QueryOut s a gi.subactionPath = out := by simpa using hout
    rw [← hZ]
    exact vec2Compute_fst_iff s a gi.subactionPath
  · intro s gi a out hty hsess ha htype hatt hout
    rw [xrGetActionStatePose_success s gi a hty hsess ha htype hatt] at hout
    have hZ : ActionStatePose.mk (poseCompute s a gi.subactionPath) = out := by
      simpa using hout
    rw [← hZ]
    exact poseCompute_iff s a gi.subactionPath

/-- C1 witness: the amended characterization applied at the concrete
not-latched state: all three activity conditions hold there, so the query
reports isActive = true (even though set 1 is not frame-latched). -/
theorem C1_isActive_characterization_witness :
    (boolQueryOut stateNotLatched actSelectLeft 0).isActive = true := by
  have h := C1_isActive_characterization.1 stateNotLatched getInfo5
    actSelectLeft (boolQueryOut stateNotLatched actSelectLeft 0)
    rfl rfl rfl rfl (by decide) rfl
  exact h.mpr ⟨by decide, Or.inl (by decide), by decide, by decide⟩

/-- C7: for every successful value-carrying action-state query (Boolean,
Float, Vector2f — the Pose query carries no value or change flag),
changedSinceLastSync is true exactly when the newly computed currentState
differs from the action's previously cached value under exact comparison
(boolean truth value for Boolean, exact rational equality for Float,
exact componentwise equality for Vector2f); the cached value and change
timestamp are updated unconditionally; and a second query of the same action
with no intervening synchronize reports the same currentState with
changedSinceLastSync false. -/
theorem C7_edge_detection_and_idempotence :
    (∀ (s : RuntimeState) (gi : ActionStateGetInfo) (a : Action)
        (out1 : ActionStateBoolean),
      gi.typeTag = XR_TYPE_ACTION_STATE_GET_INFO → s.sessionCreated = true →
      s.actions gi.action = some a → a.type = ActionType.booleanInput →
      a.actionSet ∈ s.activeActionSets →
      (xrGetActionStateBoolean s 1 gi XR_TYPE_ACTION_STATE_BOOLEAN).2.2 =
        some out1 →
      (out1.changedSinceLastSync =
        ((decide (out1.currentState ≠ 0)) != a.lastBoolValue)) ∧
      ((xrGetActionStateBoolean s 1 gi XR_TYPE_ACTION_STATE_BOOLEAN).2.1.actions
          gi.action =
        some { a with lastBoolValue := decide (out1.currentState ≠ 0),
                      lastBoolValueChangedTime := out1.lastChangeTime }) ∧
      (∀ out2 : ActionStateBoolean,
        (xrGetActionStateBoolean
            (xrGetActionStateBoolean s 1 gi XR_TYPE_ACTION_STATE_BOOLEAN).2.1
            1 gi XR_TYPE_ACTION_STATE_BOOLEAN).2.2 = some out2 →
        out2.currentState = out1.currentState ∧
        out2.changedSinceLastSync = false)) ∧
    (∀ (s : RuntimeState) (gi : ActionStateGetInfo) (a : Action)
        (out1 : ActionStateFloat),
      gi.typeTag = XR_TYPE_ACTION_STATE_GET_INFO → s.sessionCreated = true →
      s.actions gi.action = some a → a.type = ActionType.floatInput →
      a.actionSet ∈ s.activeActionSets →
      (xrGetActionStateFloat s 1 gi XR_TYPE_ACTION_STATE_FLOAT).2.2 =
        some out1 →
      (out1.changedSinceLastSync =
        decide (out1.currentState ≠ a.lastFloatValue)) ∧
      ((xrGetActionStateFloat s 1 gi XR_TYPE_ACTION_STATE_FLOAT).2.1.actions
          gi.action =
        some { a with lastFloatValue := out1.currentState,
                      lastFloatValueChangedTime := out1.lastChangeTime }) ∧
      (∀ out2 : ActionStateFloat,
        (xrGetActionStateFloat
            (xrGetActionStateFloat s 1 gi XR_TYPE_ACTION_STATE_FLOAT).2.1
            1 gi XR_TYPE_ACTION_STATE_FLOAT).2.2 = some out2 →
        out2.currentState = out1.currentState ∧
        out2.changedSinceLastSync = false)) ∧
    (∀ (s : RuntimeState) (gi : ActionStateGetInfo) (a : Action)
        (out1 : ActionStateVector2f),
      gi.typeTag = XR_TYPE_ACTION_STATE_GET_INFO → s.sessionCreated = true →
      s.actions gi.action = some a → a.type = ActionType.vector2fInput →
      a.actionSet ∈ s.activeActionSets →
      (xrGetActionStateVector2f s 1 gi XR_TYPE_ACTION_STATE_VECTOR2F).2.2 =
        some out1 →
      (out1.changedSinceLastSync =
        decide (out1.currentState.1 ≠ a.lastVector2fValue.1 ∨
                out1.currentState.2 ≠ a.lastVector2fValue.2)) ∧
      ((xrGetActionStateVector2f s 1 gi
          XR_TYPE_ACTION_STATE_VECTOR2F).2.1.actions gi.action =
        some { a with lastVector2fValue := out1.currentState,
                      lastVector2fValueChangedTime := out1.lastChangeTime }) ∧
      (∀ out2 : ActionStateVector2f,
        (xrGetActionStateVector2f
            (xrGetActionStateVector2f s 1 gi XR_TYPE_ACTION_STATE_VECTOR2F).2.1
            1 gi XR_TYPE_ACTION_STATE_VECTOR2F).2.2 = some out2 →
        out2.currentState = out1.currentState ∧
        out2.changedSinceLastSync = false)) := by
  refine ⟨?_, ?_, ?_⟩
  · intro s gi a out1 hty hsess ha htype hatt hout1
    rw [xrGetActionStateBoolean_success s gi a hty hsess ha htype hatt]
      at hout1 ⊢
    dsimp only at hout1 ⊢
    have hZ : boolQueryOut s a gi.subactionPath = out1 := by simpa using hout1
    subst hZ
    refine ⟨rfl, ?_, ?_⟩
    · rw [if_pos rfl]
      rfl
    · intro out2 hout2
      have hsucc2 := xrGetActionStateBoolean_success
        { s with actions := fun n =>
            if n = gi.action then some (boolQueryAction s a gi.subactionPath)
            else s.actions n }
        gi (boolQueryAction s a gi.subactionPath) hty hsess (by simp)
        htype hatt
      rw [hsucc2] at hout2
      have hZ2 : boolQueryOut
          { s with actions := fun n =>
              if n = gi.action then some (boolQueryAction s a gi.subactionPath)
              else s.actions n }
          (boolQueryAction s a gi.subactionPath) gi.subactionPath = out2 := by
        simpa using hout2
      rw [← hZ2]
      exact boolQueryOut_repeat s _ a gi.subactionPath
  · intro s gi a out1 hty hsess ha htype hatt hout1
    rw [xrGetActionStateFloat_success s gi a hty hsess ha htype hatt]
      at hout1 ⊢
    dsimp only at hout1 ⊢
    have hZ : floatQueryOut s a gi.subactionPath = out1 := by simpa using hout1
    subst hZ
    refine ⟨rfl, ?_, ?_⟩
    · rw [if_pos rfl]
      rfl
    · intro out2 hout2
      have hsucc2 := xrGetActionStateFloat_success
        { s with actions := fun n =>
            if n = gi.action then some (floatQueryAction s a gi.subactionPath)
            else s.actions n }
        gi (floatQueryAction s a gi.subactionPath) hty hsess (by simp)
        htype hatt
      rw [hsucc2] at hout2
      have hZ2 : floatQueryOut
          { s with actions := fun n =>
              if n = gi.action then some (floatQueryAction s a gi.subactionPath)
              else s.actions n }
          (floatQueryAction s a gi.subactionPath) gi.subactionPath = out2 := by
        simpa using hout2
      rw [← hZ2]
      exact floatQueryOut_repeat s _ a gi.subactionPath
  · intro s gi a out1 hty hsess ha htype hatt hout1
    rw [xrGetActionStateVector2f_success s gi a hty hsess ha htype hatt]
      at hout1 ⊢
    dsimp only at hout1 ⊢
    have hZ : vec2QueryOut s a gi.subactionPath = out1 := by simpa using hout1
    subst hZ
    refine ⟨rfl, ?_, ?_⟩
    · rw [if_pos rfl]
      rfl
    · intro out2 hout2
      have hsucc2 := xrGetActionStateVector2f_success
        { s with actions := fun n =>
            if n = gi.action then some (vec2QueryAction s a gi.subactionPath)
            else s.actions n }
        gi (vec2QueryAction s a gi.subactionPath) hty hsess (by simp)
        htype hatt
      rw [hsucc2] at hout2
      have hZ2 : vec2QueryOut
          { s with actions := fun n =>
              if n = gi.action then some (vec2QueryAction s a gi.subactionPath)
              else s.actions n }
          (vec2QueryAction s a gi.subactionPath) gi.subactionPath = out2 := by
        simpa using hout2
      rw [← hZ2]
      exact vec2QueryOut_repeat s _ a gi.subactionPath

/-- C7 witness: the boolean part applied at the concrete latched state: the
first query of action 5 reports currentState 1 with change flag true (cached
value was false), and an immediate second query reports the same currentState
with the change flag false. -/
theorem C7_edge_detection_and_idempotence_witness :
    (boolQueryOut stateLatched actSelectLeft 0).changedSinceLastSync = true ∧
    (boolQueryOut
        (xrGetActionStateBoolean stateLatched 1 getInfo5
          XR_TYPE_ACTION_STATE_BOOLEAN).2.1
        (boolQueryAction stateLatched actSelectLeft 0) 0).currentState =
      (boolQueryOut stateLatched actSelectLeft 0).currentState ∧
    (boolQueryOut
        (xrGetActionStateBoolean stateLatched 1 getInfo5
          XR_TYPE_ACTION_STATE_BOOLEAN).2.1
        (boolQueryAction stateLatched actSelectLeft 0) 0).changedSinceLastSync =
      false := by
  have h := C7_edge_detection_and_idempotence.1 stateLatched getInfo5
    actSelectLeft (boolQueryOut stateLatched actSelectLeft 0)
    rfl rfl rfl rfl (by decide) rfl
  have h3 := h.2.2
    (boolQueryOut
      (xrGetActionStateBoolean stateLatched 1 getInfo5
        XR_TYPE_ACTION_STATE_BOOLEAN).2.1
      (boolQueryAction stateLatched actSelectLeft 0) 0) rfl
  refine ⟨?_, h3.1, h3.2⟩
  rw [h.1]
  decide

/-- C8: for a successful boolean query of an action that is active (non-empty
bound path, hand resolved, controller present) and whose owning set is
frame-latched, currentState is the bitmask-and of the hand's button field
with the action's mask when a button binding is wired, and otherwise the
bound float field of that hand compared against the fixed threshold 0.99
(1 exactly when the value exceeds 0.99, else 0). -/
theorem C8_boolean_currentState (s : RuntimeState) (gi : ActionStateGetInfo)
    (a : Action) (out : ActionStateBoolean)
    (hty : gi.typeTag = XR_TYPE_ACTION_STATE_GET_INFO)
    (hsess : s.sessionCreated = true)
    (ha : s.actions gi.action = some a)
    (htype : a.type = ActionType.booleanInput)
    (hatt : a.actionSet ∈ s.activeActionSets)
    (hp : a.path ≠ "")
    (hside : 0 ≤ getActionSide (getActionPath s a gi.subactionPath))
    (hact : sideGet s.isControllerActive
      (sideIndex (getActionSide (getActionPath s a gi.subactionPath))) = true)
    (hmem : a.actionSet ∈ s.frameLatchedActionSets)
    (hout : (xrGetActionStateBoolean s 1 gi XR_TYPE_ACTION_STATE_BOOLEAN).2.2 =
      some out) :
    (∀ bf, a.buttonMap = some bf →
      out.currentState =
        Nat.land (readButton s.cachedInputState bf
          (sideIndex (getActionSide (getActionPath s a gi.subactionPath))))
          a.buttonType) ∧
    (a.buttonMap = none → ∀ ff, a.floatValue = some ff →
      out.currentState =
        if (99 : ℚ)/100 < readFloat s.cachedInputState ff
            (sideIndex (getActionSide (getActionPath s a gi.subactionPath)))
        then 1 else 0) := by
  rw [xrGetActionStateBoolean_success s gi a hty hsess ha htype hatt] at hout
  have hZ : boolQueryOut s a gi.subactionPath = out := by simpa using hout
  subst hZ
  constructor
  · intro bf hbm
    show (boolCompute s a gi.subactionPath).2 = _
    simp [boolCompute, hbm, hp, hside, hact, hmem]
  · intro hbm ff hfv
    show (boolCompute s a gi.subactionPath).2 = _
    simp [boolCompute, hbm, hfv, hp, hside, hact, hmem]

/-- C8 witness: in the latched state (left buttons word 5, mask 1), the query
of action 5 reports currentState 5 land 1 = 1. -/
theorem C8_boolean_currentState_witness :
    (boolQueryOut stateLatched actSelectLeft 0).currentState = 1 := by
  have h := C8_boolean_currentState stateLatched getInfo5 actSelectLeft
    (boolQueryOut stateLatched actSelectLeft 0)
    rfl rfl rfl rfl (by decide) (by decide) (by decide) (by decide) (by decide)
    rfl
  have h1 := h.1 ButtonField.handButtons rfl
  rw [h1]
  decide

/-- C2 counterexample: starting from a state where set 1 is frame-latched
from an earlier synchronize, a successful synchronize declaring only set 2
leaves set 1 latched, contradicting the claim that the latch set is replaced
and that a set not declared this time is no longer latched. -/
theorem C2_counterexample :
    (xrSyncActions
        { state0 with actionSets := [1, 2], activeActionSets := [1, 2],
                      frameLatchedActionSets := [1] } 1
        { typeTag := XR_TYPE_ACTIONS_SYNC_INFO, activeActionSets := [(2, 0)] }
        input0 (none, none)).1 = XrResult.success ∧
    (1 : Nat) ∉ ([(2, 0)] : List (Nat × Nat)).map Prod.fst ∧
    1 ∈ (xrSyncActions
        { state0 with actionSets := [1, 2], activeActionSets := [1, 2],
                      frameLatchedActionSets := [1] } 1
        { typeTag := XR_TYPE_ACTIONS_SYNC_INFO, activeActionSets := [(2, 0)] }
        input0 (none, none)).2.frameLatchedActionSets := by
  refine ⟨rfl, by decide, by decide⟩

/-- C2 (amended): a successful Synchronize call inserts the declared sets
into the frame-latched collection without clearing it: afterwards the
collection contains exactly the union of the previously latched sets and the
sets declared in this call, so sets latched by an earlier synchronize remain
latched even when not declared again. -/
theorem C2_latch_accumulates (s s2 : RuntimeState) (info : ActionsSyncInfo)
    (hw : PvrInputState) (det : Option String × Option String)
    (hok : xrSyncActions s 1 info hw det = (XrResult.success, s2)) :
    ∀ x, x ∈ s2.frameLatchedActionSets ↔
      x ∈ s.frameLatchedActionSets ∨ x ∈ info.activeActionSets.map Prod.fst := by
  simp only [xrSyncActions] at hok
  by_cases hty : info.typeTag ≠ XR_TYPE_ACTIONS_SYNC_INFO
  · rw [if_pos hty] at hok
    simp at hok
  · rw [if_neg hty] at hok
    by_cases hsess : ¬(s.sessionCreated = true) ∨ (1 : Nat) ≠ 1
    · rw [if_pos hsess] at hok
      simp at hok
    · rw [if_neg hsess] at hok
      by_cases hr : (syncLatchLoop s info.activeActionSets).1 = XrResult.success
      · rw [if_pos hr] at hok
        have hs2 : s2 =
            (syncSide (syncSide
              { (syncLatchLoop s info.activeActionSets).2 with
                  cachedInputState := hw } 0 det.1).1 1 det.2).1 := by
          have h := congrArg Prod.snd hok
          simpa using h.symm
        intro x
        rw [hs2, syncSide_frameLatched, syncSide_frameLatched]
        exact syncLatchLoop_mem _ _ _ hr
      · rw [if_neg hr] at hok
        exact absurd (congrArg Prod.fst hok) (by simpa using hr)

/-- C2 witness: the amended theorem at the concrete sync of the
counterexample state: afterwards the declared set 2 is latched and the
previously latched, undeclared set 1 is still latched. -/
theorem C2_latch_accumulates_witness :
    2 ∈ (xrSyncActions
        { state0 with actionSets := [1, 2], activeActionSets := [1, 2],
                      frameLatchedActionSets := [1] } 1
        { typeTag := XR_TYPE_ACTIONS_SYNC_INFO, activeActionSets := [(2, 0)] }
        input0 (none, none)).2.frameLatchedActionSets ∧
    1 ∈ (xrSyncActions
        { state0 with actionSets := [1, 2], activeActionSets := [1, 2],
                      frameLatchedActionSets := [1] } 1
        { typeTag := XR_TYPE_ACTIONS_SYNC_INFO, activeActionSets := [(2, 0)] }
        input0 (none, none)).2.frameLatchedActionSets := by
  have h := C2_latch_accumulates
    { state0 with actionSets := [1, 2], activeActionSets := [1, 2],
                  frameLatchedActionSets := [1] }
    (xrSyncActions
        { state0 with actionSets := [1, 2], activeActionSets := [1, 2],
                      frameLatchedActionSets := [1] } 1
        { typeTag := XR_TYPE_ACTIONS_SYNC_INFO, activeActionSets := [(2, 0)] }
        input0 (none, none)).2
    { typeTag := XR_TYPE_ACTIONS_SYNC_INFO, activeActionSets := [(2, 0)] }
    input0 (none, none) rfl
  exact ⟨(h 2).mpr (Or.inr (by decide)), (h 1).mpr (Or.inl (by decide))⟩

/-- C3 counterexample: a first Attach call with an empty set list succeeds,
but it leaves the attached collection empty, so a second Attach call (here
also with an empty list) succeeds instead of failing with
ActionSetsAlreadyAttached as the claim states. -/
theorem C3_counterexample :
    (xrAttachSessionActionSets state0 1
        { typeTag := XR_TYPE_SESSION_ACTION_SETS_ATTACH_INFO,
          actionSets := [] }).1 = XrResult.success ∧
    (xrAttachSessionActionSets
        (xrAttachSessionActionSets state0 1
          { typeTag := XR_TYPE_SESSION_ACTION_SETS_ATTACH_INFO,
            actionSets := [] }).2 1
        { typeTag := XR_TYPE_SESSION_ACTION_SETS_ATTACH_INFO,
          actionSets := [] }).1 = XrResult.success := by
  constructor <;> rfl

/-- C3 (amended): after a successful Attach call that listed at least one
action set, the binding state is frozen: every subsequent Attach call (with
valid request type) fails with ActionSetsAlreadyAttached, and every subsequent
SuggestBindings call (with valid request type and instance) fails with
ActionSetsAlreadyAttached. A successful Attach with an empty list does not
freeze anything, because the attached collection stays empty. -/
theorem C3_attach_one_shot (s s2 : RuntimeState)
    (info : SessionActionSetsAttachInfo)
    (hty : info.typeTag = XR_TYPE_SESSION_ACTION_SETS_ATTACH_INFO)
    (hne : info.actionSets ≠ [])
    (hok : xrAttachSessionActionSets s 1 info = (XrResult.success, s2)) :
    (∀ info2 : SessionActionSetsAttachInfo,
        info2.typeTag = XR_TYPE_SESSION_ACTION_SETS_ATTACH_INFO →
        (xrAttachSessionActionSets s2 1 info2).1 =
          XrResult.errorActionsetsAlreadyAttached) ∧
    (∀ sb : InteractionProfileSuggestedBinding,
        sb.typeTag = XR_TYPE_INTERACTION_PROFILE_SUGGESTED_BINDING →
        s.instanceCreated = true →
        (xrSuggestInteractionProfileBindings s2 1 sb).1 =
          XrResult.errorActionsetsAlreadyAttached) := by
  unfold xrAttachSessionActionSets at hok
  rw [if_neg (by simp [hty])] at hok
  by_cases hsess : ¬(s.sessionCreated = true) ∨ (1 : Nat) ≠ 1
  · rw [if_pos hsess] at hok
    simp at hok
  · rw [if_neg hsess] at hok
    push_neg at hsess
    by_cases hact : s.activeActionSets ≠ []
    · rw [if_pos hact] at hok
      simp at hok
    · rw [if_neg hact] at hok
      have hres : (attachLoop s info.actionSets).1 = XrResult.success := by
        rw [hok]
      have hstate : (attachLoop s info.actionSets).2 = s2 := by rw [hok]
      have hne2 : s2.activeActionSets ≠ [] :=
        hstate ▸ attachLoop_success_nonempty _ _ hne hres
      have hsess2 : s2.sessionCreated = true := by
        rw [← hstate, attachLoop_sessionCreated]
        exact hsess.1
      constructor
      · intro info2 hty2
        unfold xrAttachSessionActionSets
        rw [if_neg (by simp [hty2]), if_neg (by simp [hsess2]), if_pos hne2]
      · intro sb htyb hinst
        have hinst2 : s2.instanceCreated = true := by
          rw [← hstate, attachLoop_instanceCreated]
          exact hinst
        unfold xrSuggestInteractionProfileBindings
        rw [if_neg (by simp [htyb]), if_neg (by simp [hinst2]), if_pos hne2]

/-- C3 witness: attaching set 1 to the base state succeeds and yields the
state with attached collection [1]; from there a second (empty) attach and a
suggestion call both fail with ActionSetsAlreadyAttached. -/
theorem C3_attach_one_shot_witness :
    (xrAttachSessionActionSets { state0 with activeActionSets := [1] } 1
        { typeTag := XR_TYPE_SESSION_ACTION_SETS_ATTACH_INFO,
          actionSets := [] }).1 = XrResult.errorActionsetsAlreadyAttached ∧
    (xrSuggestInteractionProfileBindings { state0 with activeActionSets := [1] } 1
        { typeTag := XR_TYPE_INTERACTION_PROFILE_SUGGESTED_BINDING,
          interactionProfile := 0, suggestedBindings := [] }).1 =
      XrResult.errorActionsetsAlreadyAttached := by
  have h := C3_attach_one_shot state0 { state0 with activeActionSets := [1] }
    { typeTag := XR_TYPE_SESSION_ACTION_SETS_ATTACH_INFO, actionSets := [1] }
    rfl (by decide) (by rfl)
  exact ⟨h.1 { typeTag := XR_TYPE_SESSION_ACTION_SETS_ATTACH_INFO,
               actionSets := [] } rfl,
         h.2 { typeTag := XR_TYPE_INTERACTION_PROFILE_SUGGESTED_BINDING,
               interactionProfile := 0, suggestedBindings := [] } rfl rfl⟩

/-- C6 counterexample: attaching the list [1, 99] to the base state (where
set 1 is known and 99 is not) fails with HandleInvalid, yet set 1 — listed
before the unknown handle — has become attached, contradicting the claim that
no listed set becomes attached by the failed call. -/
theorem C6_counterexample :
    (xrAttachSessionActionSets state0 1
        { typeTag := XR_TYPE_SESSION_ACTION_SETS_ATTACH_INFO,
          actionSets := [1, 99] }).1 = XrResult.errorHandleInvalid ∧
    1 ∈ (xrAttachSessionActionSets state0 1
        { typeTag := XR_TYPE_SESSION_ACTION_SETS_ATTACH_INFO,
          actionSets := [1, 99] }).2.activeActionSets := by
  constructor
  · rfl
  · decide

/-- C6 (amended): when Attach (called with a valid request on a session with
nothing attached yet) fails with HandleInvalid because a listed handle is
unknown, the attached collection is updated partially: afterwards it contains
exactly the sets listed before the first unknown handle. -/
theorem C6_attach_partial (s : RuntimeState)
    (info : SessionActionSetsAttachInfo)
    (hty : info.typeTag = XR_TYPE_SESSION_ACTION_SETS_ATTACH_INFO)
    (hsess : s.sessionCreated = true)
    (hempty : s.activeActionSets = []) :
    ((∃ h ∈ info.actionSets, h ∉ s.actionSets) →
      (xrAttachSessionActionSets s 1 info).1 = XrResult.errorHandleInvalid) ∧
    (∀ x, x ∈ (xrAttachSessionActionSets s 1 info).2.activeActionSets ↔
      x ∈ info.actionSets.takeWhile (fun h => decide (h ∈ s.actionSets))) := by
  have hred : xrAttachSessionActionSets s 1 info = attachLoop s info.actionSets := by
    unfold xrAttachSessionActionSets
    rw [if_neg (by simp [hty]), if_neg (by simp [hsess]), if_neg (by simp [hempty])]
  rw [hred]
  constructor
  · exact attachLoop_fail info.actionSets s
  · intro x
    rw [attachLoop_active_mem]
    simp [hempty]

/-- C6 witness: the amended theorem at the concrete list [1, 99] on the base
state: the call fails with HandleInvalid; the valid prefix [1] is attached
afterwards while the handle 99 after the failure point is not. -/
theorem C6_attach_partial_witness :
    (xrAttachSessionActionSets state0 1
        { typeTag := XR_TYPE_SESSION_ACTION_SETS_ATTACH_INFO,
          actionSets := [1, 99] }).1 = XrResult.errorHandleInvalid ∧
    1 ∈ (xrAttachSessionActionSets state0 1
        { typeTag := XR_TYPE_SESSION_ACTION_SETS_ATTACH_INFO,
          actionSets := [1, 99] }).2.activeActionSets ∧
    99 ∉ (xrAttachSessionActionSets state0 1
        { typeTag := XR_TYPE_SESSION_ACTION_SETS_ATTACH_INFO,
          actionSets := [1, 99] }).2.activeActionSets := by
  have h := C6_attach_partial state0
    { typeTag := XR_TYPE_SESSION_ACTION_SETS_ATTACH_INFO, actionSets := [1, 99] }
    rfl rfl rfl
  exact ⟨h.1 ⟨99, by decide, by decide⟩, (h.2 1).mpr (by decide),
    fun hmem => absurd ((h.2 99).mp hmem) (by decide)⟩

/-- C4 counterexample: the path table holds handle 1 ↦ "ab", whose required
buffer length is 3 (string length 2 plus the terminator). A call with the
non-zero capacity 2 — smaller than the required length — does not fail with
SizeInsufficient as the claim states: it returns XR_SUCCESS (reporting
required length 3), and the sprintf_s write faults because "ab" plus its
terminator does not fit in 2 bytes. -/
theorem C4_counterexample :
    (0 < 2 ∧ 2 < String.length "ab" + 1) ∧
    xrPathToString { state0 with strings := [(1, "ab")] } 1 1 2 true =
      (XrResult.success, 3, BufferWrite.fault) := by
  constructor
  · decide
  · rfl

/-- C4 (amended): ToString follows the two-call convention with the
insufficiency check one short of the required length: a zero-capacity call
succeeds reporting required length = string length + 1; a non-zero capacity
smaller than the string length (not length + 1) fails with SizeInsufficient;
a capacity of at least length + 1 succeeds, reports the required length, and
writes the string. At a capacity of exactly the string length (reachable
because the check is against the length without the terminator) the call
still returns XR_SUCCESS and reports the required length, but the sprintf_s
write faults — the string plus terminator does not fit, so the buffer is
emptied and the invalid-parameter handler is invoked instead of the string
being delivered. -/
theorem C4_pathToString_two_call (s : RuntimeState) (path : Nat) (str : String)
    (hinst : s.instanceCreated = true)
    (hstr : lookupString s.strings path = some str) :
    xrPathToString s 1 path 0 false =
      (XrResult.success, str.length + 1, BufferWrite.notWritten) ∧
    (∀ cap, 0 < cap → cap < str.length →
      (xrPathToString s 1 path cap true).1 = XrResult.errorSizeInsufficient) ∧
    (∀ cap, str.length + 1 ≤ cap →
      xrPathToString s 1 path cap true =
        (XrResult.success, str.length + 1, BufferWrite.written str)) ∧
    (0 < str.length →
      xrPathToString s 1 path str.length true =
        (XrResult.success, str.length + 1, BufferWrite.fault)) := by
  refine ⟨?_, ?_, ?_, ?_⟩
  · simp [xrPathToString, hinst, hstr]
  · intro cap hpos hlt
    simp [xrPathToString, hinst, hstr, Nat.pos_iff_ne_zero.mp hpos, hlt]
  · intro cap hge
    have hpos : cap ≠ 0 := by omega
    simp [xrPathToString, sprintfS, hinst, hstr, hpos, hge,
      Nat.not_lt.mpr (by omega : str.length ≤ cap)]
  · intro hlen
    simp [xrPathToString, sprintfS, hinst, hstr, Nat.pos_iff_ne_zero.mp hlen,
      Nat.lt_irrefl, Nat.not_le.mpr (by omega : str.length < str.length + 1)]

/-- C4 witness: the amended theorem applied at the concrete table 1 ↦ "ab"
with capacities 0, 1, 3 and 2 (the boundary). -/
theorem C4_pathToString_two_call_witness :
    xrPathToString { state0 with strings := [(1, "ab")] } 1 1 0 false =
      (XrResult.success, 3, BufferWrite.notWritten) ∧
    (xrPathToString { state0 with strings := [(1, "ab")] } 1 1 1 true).1 =
      XrResult.errorSizeInsufficient ∧
    xrPathToString { state0 with strings := [(1, "ab")] } 1 1 3 true =
      (XrResult.success, 3, BufferWrite.written "ab") ∧
    xrPathToString { state0 with strings := [(1, "ab")] } 1 1 2 true =
      (XrResult.success, 3, BufferWrite.fault) := by
  have h := C4_pathToString_two_call { state0 with strings := [(1, "ab")] } 1 "ab"
    (by rfl) (by rfl)
  exact ⟨h.1, h.2.1 1 (by decide) (by decide), h.2.2.1 3 (by decide),
    h.2.2.2 (by decide)⟩

/-- C10: with a valid session, GetCurrentInteractionProfile with a null
top-level path succeeds and returns the left hand's (side 0) current profile;
with a non-null path that does not resolve to a hand it succeeds and returns
the null path. -/
theorem C10_currentInteractionProfile (s : RuntimeState)
    (hsess : s.sessionCreated = true) :
    xrGetCurrentInteractionProfile s 1 0 XR_TYPE_INTERACTION_PROFILE_STATE =
      (XrResult.success, s.currentInteractionProfile.1) ∧
    (∀ p, p ≠ 0 → getActionSide (getXrPath s p) < 0 →
      xrGetCurrentInteractionProfile s 1 p XR_TYPE_INTERACTION_PROFILE_STATE =
        (XrResult.success, 0)) := by
  constructor
  · simp [xrGetCurrentInteractionProfile, hsess, sideIndex, sideGet]
  · intro p hp hside
    simp [xrGetCurrentInteractionProfile, hsess, hp, Int.not_le.mpr hside]

/-- C10 witness: a state whose path table holds 3 ↦ "/user/gamepad" and whose
current profiles are (42, 43): the null-path call returns 42 (left), the
gamepad-path call returns the null path. -/
theorem C10_currentInteractionProfile_witness :
    xrGetCurrentInteractionProfile
        { state0 with strings := [(3, "/user/gamepad")],
                      currentInteractionProfile := (42, 43) }
        1 0 XR_TYPE_INTERACTION_PROFILE_STATE = (XrResult.success, 42) ∧
    xrGetCurrentInteractionProfile
        { state0 with strings := [(3, "/user/gamepad")],
                      currentInteractionProfile := (42, 43) }
        1 3 XR_TYPE_INTERACTION_PROFILE_STATE = (XrResult.success, 0) := by
  have h := C10_currentInteractionProfile
    { state0 with strings := [(3, "/user/gamepad")],
                  currentInteractionProfile := (42, 43) } (by rfl)
  exact ⟨h.1, h.2 3 (by decide) (by decide)⟩

/-- C9: an ApplyHaptics call that passes all validation on a Vibration action
whose resolved path ends in "/output/haptic" and whose hand resolves performs
exactly one hardware pulse with the payload amplitude when it is positive, and
no hardware call when it is zero or negative; it succeeds either way, and the
payload's frequency and duration (arbitrary here) never influence the pulses. -/
theorem C9_haptics_amplitude_gate (s : RuntimeState) (info : HapticActionInfo)
    (a : Action) (chain : List HapticEntry) (d : Int) (f amp : ℚ)
    (hty : info.typeTag = XR_TYPE_HAPTIC_ACTION_INFO)
    (hsess : s.sessionCreated = true)
    (ha : s.actions info.action = some a)
    (htype : a.type = ActionType.vibrationOutput)
    (hatt : a.actionSet ∈ s.activeActionSets)
    (hpath : a.path ≠ "")
    (hout : strEndsWith (getActionPath s a info.subactionPath) "/output/haptic" = true)
    (hside : 0 ≤ getActionSide (getActionPath s a info.subactionPath))
    (hvib : findVibration chain = some (d, f, amp)) :
    xrApplyHapticFeedback s 1 info chain =
      (XrResult.success,
       if 0 < amp then
         [(sideIndex (getActionSide (getActionPath s a info.subactionPath)), amp)]
       else []) := by
  simp only [xrApplyHapticFeedback, hty, hsess, ha, htype, hatt, hpath, hout,
    hside, hvib]
  simp only [ne_eq, not_true_eq_false, not_false_eq_true, if_false, if_true,
    true_and, and_true, or_self, or_false, false_or, ite_false, ite_true,
    not_true, if_neg, reduceIte]
  rw [if_pos hpath]
  split <;> rfl

/-- C9 witness: a right-hand vibration action bound to
"/user/hand/right/output/haptic": amplitude 1/2 yields exactly the pulse
(right, 1/2); amplitude 0 yields no pulse; both succeed. -/
theorem C9_haptics_amplitude_gate_witness :
    xrApplyHapticFeedback
        { state0 with
            actions := fun n =>
              if n = 6 then
                some { type := ActionType.vibrationOutput, actionSet := 1,
                       path := "/user/hand/right/output/haptic" }
              else none,
            activeActionSets := [1] }
        1 { typeTag := XR_TYPE_HAPTIC_ACTION_INFO, action := 6, subactionPath := 0 }
        [HapticEntry.vibration (-1) 0 (1/2)] = (XrResult.success, [(1, 1/2)]) ∧
    xrApplyHapticFeedback
        { state0 with
            actions := fun n =>
              if n = 6 then
                some { type := ActionType.vibrationOutput, actionSet := 1,
                       path := "/user/hand/right/output/haptic" }
              else none,
            activeActionSets := [1] }
        1 { typeTag := XR_TYPE_HAPTIC_ACTION_INFO, action := 6, subactionPath := 0 }
        [HapticEntry.vibration (-1) 0 0] = (XrResult.success, []) := by
  constructor
  · have h := C9_haptics_amplitude_gate
      { state0 with
          actions := fun n =>
            if n = 6 then
              some { type := ActionType.vibrationOutput, actionSet := 1,
                     path := "/user/hand/right/output/haptic" }
            else none,
          activeActionSets := [1] }
      { typeTag := XR_TYPE_HAPTIC_ACTION_INFO, action := 6, subactionPath := 0 }
      { type := ActionType.vibrationOutput, actionSet := 1,
        path := "/user/hand/right/output/haptic" }
      [HapticEntry.vibration (-1) 0 (1/2)] (-1) 0 (1/2)
      rfl rfl rfl rfl (by decide) (by decide) (by decide) (by decide) rfl
    simpa using h
  · have h := C9_haptics_amplitude_gate
      { state0 with
          actions := fun n =>
            if n = 6 then
              some { type := ActionType.vibrationOutput, actionSet := 1,
                     path := "/user/hand/right/output/haptic" }
            else none,
          activeActionSets := [1] }
      { typeTag := XR_TYPE_HAPTIC_ACTION_INFO, action := 6, subactionPath := 0 }
      { type := ActionType.vibrationOutput, actionSet := 1,
        path := "/user/hand/right/output/haptic" }
      [HapticEntry.vibration (-1) 0 0] (-1) 0 0
      rfl rfl rfl rfl (by decide) (by decide) (by decide) (by decide) rfl
    simpa using h

end pimax_openxr
